import Mathlib

/-!
Shallow embedding of the MariaDB backend protocol module of MaxScale
(`server/modules/protocol/MySQL/mariadbbackend/mysql_backend.cc`), together
with theorems checking the design specification against it.

Modelling conventions:
* byte buffers are `List Nat` (each stored byte is reduced mod 256 where the
  C code truncates);
* a `GWBUF` chain is modelled as a single segment carrying the flattened
  bytes and the type tags of its head segment (the `GWBUF_*` macros the
  module uses only inspect the head segment);
* side effects (socket writes, router callbacks, fake hangup events, tasks
  posted to the main worker) are collected in an explicit `Effects` record;
* functions of the surrounding core that the module calls but that are not
  part of the verified sources (SHA1, the authenticator plugin interface,
  `dcb_read`/`dcb_write`, packet framing helpers) are either oracles passed
  as parameters or definitions marked `Modelled from the spec:`.
-/

namespace MaxScale

/-- A byte buffer: a list of byte values. -/
abbrev Buf := List Nat

/-- `gw_mysql_get_byte3`: 3-byte little-endian value at the head of a buffer. -/
def getByte3 (b : Buf) : Nat :=
  b.getD 0 0 + 256 * b.getD 1 0 + 65536 * b.getD 2 0

/-- `gw_mysql_set_byte3`: little-endian 3-byte encoding of a packet length. -/
def setByte3 (n : Nat) : Buf :=
  [n % 256, n / 256 % 256, n / 65536 % 256]

/-- `MYSQL_GET_PAYLOAD_LEN`: payload length taken from a packet header. -/
def payloadLen (b : Buf) : Nat := getByte3 b

/-- `MYSQL_GET_COMMAND` / `mxs_mysql_get_command`: byte 4 (the first payload byte). -/
def getCommand (b : Buf) : Nat := b.getD 4 0

/-- `MYSQL_GET_ERRCODE`: 2-byte little-endian error code at payload offset 1. -/
def getErrcode (b : Buf) : Nat := b.getD 5 0 + 256 * b.getD 6 0

/-- The bytes of a NUL-terminated C string starting at the head of `b`. -/
def cStr (b : Buf) : Buf := b.takeWhile (fun x => x ≠ 0)

def MYSQL_HEADER_LEN : Nat := 4
def MYSQL_REPLY_OK : Nat := 0x00
def MYSQL_REPLY_ERR : Nat := 0xff
def MYSQL_REPLY_AUTHSWITCHREQUEST : Nat := 0xfe
def MYSQL_EOF_PACKET_LEN : Nat := 9
def MYSQL_PACKET_LENGTH_MAX : Nat := 0xffffff
def GW_MYSQL_SCRAMBLE_SIZE : Nat := 20
def MXS_COM_QUIT : Nat := 0x01
def MXS_COM_QUERY : Nat := 0x03
def MXS_COM_CHANGE_USER : Nat := 0x11
def MXS_COM_STMT_PREPARE : Nat := 0x16
def MXS_COM_STMT_EXECUTE : Nat := 0x17
def MXS_COM_STMT_FETCH : Nat := 0x1c

/- Server error codes, from the MariaDB server error-code header (the header
is not part of the verified sources; only the concrete values matter). -/
def ER_ACCESS_DENIED_ERROR : Nat := 1045
def ER_DBACCESS_DENIED_ERROR : Nat := 1044
def ER_HOST_IS_BLOCKED : Nat := 1129
def ER_ACCESS_DENIED_NO_PASSWORD_ERROR : Nat := 1698

/-- ASCII bytes of `DEFAULT_MYSQL_AUTH_PLUGIN`, i.e. "mysql_native_password". -/
def pluginName : Buf :=
  [109, 121, 115, 113, 108, 95, 110, 97, 116, 105, 118, 101, 95,
   112, 97, 115, 115, 119, 111, 114, 100]

/-- `MYSQL_IS_COM_QUIT`. -/
def MYSQL_IS_COM_QUIT (b : Buf) : Bool := getCommand b == MXS_COM_QUIT

/-- `MYSQL_IS_CHANGE_USER`. -/
def MYSQL_IS_CHANGE_USER (b : Buf) : Bool := getCommand b == MXS_COM_CHANGE_USER

/-- `mxs_auth_state_t`. -/
inductive AuthState
  | INIT
  | PENDING_CONNECT
  | CONNECTED
  | RESPONSE_SENT
  | COMPLETE
  | FAILED
  | HANDSHAKE_FAILED
deriving DecidableEq, Repr

/-- The DCB states the module inspects (`DCB_STATE_POLLING` and the rest). -/
inductive DcbState
  | ALLOC
  | POLLING
  | NOPOLLING
  | ZOMBIE
deriving DecidableEq, Repr

/-- Session states the module inspects. -/
inductive SessionState
  | STARTED
  | STOPPING
  | STOPPED
deriving DecidableEq, Repr

/-- `mxs_error_action_t`. -/
inductive ErrAction
  | REPLY_CLIENT
  | NEW_CONNECTION
deriving DecidableEq, Repr

/-- Result of `dcb->authfunc.authenticate`. -/
inductive AuthRes
  | INCOMPLETE
  | SSL_INCOMPLETE
  | SUCCEEDED
  | FAILED
deriving DecidableEq, Repr

/-- The `GWBUF_TYPE_*` tag bits the module reads and writes. -/
structure BufTags where
  collect_result : Bool := false
  track_state : Bool := false
  ignorable : Bool := false
  is_result : Bool := false
deriving DecidableEq, Repr

/-- A buffer chain, flattened: the bytes plus the head segment's tags. -/
structure GWBUF where
  data : Buf
  tags : BufTags := {}
deriving DecidableEq, Repr

/-- `gwbuf_append`: link `b` behind the chain `a` (the head segment keeps
governing the tag macros). -/
def gwbuf_append (a : Option GWBUF) (b : GWBUF) : GWBUF :=
  match a with
  | none => b
  | some a => { data := a.data ++ b.data, tags := a.tags }

/-- The credential snapshot held on the client DCB (`MYSQL_session`):
user name bytes, default schema bytes (both without NUL) and the
20-byte SHA1 of the password. -/
structure MYSQL_session where
  user : Buf
  db : Buf
  client_sha1 : Buf
deriving DecidableEq, Repr

/-- The per-DCB backend protocol state (`MySQLProtocol`), restricted to the
fields this module reads or writes that the claims concern. -/
structure MySQLProtocol where
  protocol_auth_state : AuthState
  ignore_replies : Nat
  stored_query : Option GWBUF
  changing_user : Bool
  current_command : Nat
  large_query : Bool
  collect_result : Bool
  track_state : Bool
  charset : Nat
  scramble : Buf
deriving DecidableEq, Repr

/-- The DCB fields this module inspects.  The write queue is not held in the
state: bytes accepted by `dcb_write` are recorded as a `sent` effect. -/
structure DCB where
  state : DcbState
  persistentstart : Nat
  was_persistent : Bool
  dcb_errhandle_called : Bool
  has_session : Bool
  readq : Buf
  delayq : Option GWBUF
  proto : MySQLProtocol
deriving DecidableEq, Repr

/-- Router capability bits (`RCAP_TYPE_*`). -/
structure Caps where
  packet_output : Bool := false
  stmt_output : Bool := false
  resultset_output : Bool := false
  contiguous_output : Bool := false
  session_state_tracking : Bool := false
  stmt_input : Bool := false
  no_rsession : Bool := false
deriving DecidableEq, Repr

/-- The parts of the session, service and kernel environment the module
consults.  `dcb_write_ok` and `router_succp` are the outcomes of the calls
into the core writer and the router error handler, which live outside the
verified sources. -/
structure SessionEnv where
  client : MYSQL_session
  caps : Caps
  load_active : Bool
  client_has_protocol : Bool
  client_current_command : Nat
  session_state : SessionState
  client_dcb_state : DcbState
  client_auth_state : AuthState
  client_is_internal : Bool
  has_router_session : Bool
  persistent_conns_enabled : Bool
  ssl_established : Bool
  dcb_write_ok : Bool
  router_succp : Bool
  sock_errno : Nat
  is_fake_event : Bool
deriving DecidableEq, Repr

/-- Observable side effects of one event-handler invocation. -/
structure Effects where
  sent : List GWBUF := []
  replies : List GWBUF := []
  notified : List ErrAction := []
  err_packets : List Buf := []
  fake_hangups : Nat := 0
  client_hangups : Nat := 0
  maint_tasks : Nat := 0
  user_refreshes : Nat := 0
  freed : List Buf := []
  handleerror_failed : Bool := false
deriving DecidableEq, Repr

/-- Sequential composition of effects. -/
def Effects.merge (a b : Effects) : Effects :=
  { sent := a.sent ++ b.sent
    replies := a.replies ++ b.replies
    notified := a.notified ++ b.notified
    err_packets := a.err_packets ++ b.err_packets
    fake_hangups := a.fake_hangups + b.fake_hangups
    client_hangups := a.client_hangups + b.client_hangups
    maint_tasks := a.maint_tasks + b.maint_tasks
    user_refreshes := a.user_refreshes + b.user_refreshes
    freed := a.freed ++ b.freed
    handleerror_failed := a.handleerror_failed || b.handleerror_failed }

/-- `null_client_sha1`: the all-zero password hash meaning "no password". -/
def null_client_sha1 : Buf := List.replicate GW_MYSQL_SCRAMBLE_SIZE 0

/-- `gw_str_xor`: byte-wise xor of two buffers. -/
def gw_str_xor (a b : Buf) : Buf := List.zipWith (fun x y => x ^^^ y) a b

/-- `gw_create_change_user_packet` (mysql_backend.cc:1691).  Builds the
synthesised COM_CHANGE_USER from the credential snapshot `mses` and the
backend protocol state, and tags the buffer `GWBUF_TYPE_COLLECT_RESULT`.
`sha1` is the hash oracle behind `gw_sha1_str` / `gw_sha1_2_str` (OpenSSL,
outside the verified sources).  Note that the source emits the low byte of
the charset followed by a literal zero byte.  The payload is factored out;
the packet prefixes the 3-byte length (`bytes - 4`) and sequence 0. -/
def change_user_payload (sha1 : Buf → Buf) (mses : MYSQL_session)
    (protocol : MySQLProtocol) : Buf :=
  let user := mses.user
  let curr_db : Option Buf := if 0 < mses.db.length then some mses.db else none
  let curr_passwd : Option Buf :=
    if mses.client_sha1 ≠ null_client_sha1 then some mses.client_sha1 else none
  let charset := protocol.charset
  let authField : Buf :=
    match curr_passwd with
    | some pwd =>
      let hash1 := pwd
      let hash2 := sha1 hash1
      let new_sha := sha1 (protocol.scramble ++ hash2)
      let client_scramble := gw_str_xor new_sha hash1
      GW_MYSQL_SCRAMBLE_SIZE :: client_scramble
    | none => [0]
  [0x11] ++ user ++ [0]
    ++ authField
    ++ curr_db.getD [] ++ [0]
    ++ [charset % 256, 0]
    ++ pluginName ++ [0]

def gw_create_change_user_packet (sha1 : Buf → Buf) (mses : MYSQL_session)
    (protocol : MySQLProtocol) : GWBUF :=
  { data := setByte3 (change_user_payload sha1 mses protocol).length ++ [0]
      ++ change_user_payload sha1 mses protocol
    tags := { collect_result := true } }

/-- The COM_CHANGE_USER payload exactly as the specification words it
("2-byte charset (little-endian)"); used to compare the source's packet
against the specified one. -/
def change_user_packet_spec (sha1 : Buf → Buf) (mses : MYSQL_session)
    (protocol : MySQLProtocol) : Buf :=
  let authField : Buf :=
    if mses.client_sha1 ≠ null_client_sha1 then
      GW_MYSQL_SCRAMBLE_SIZE ::
        gw_str_xor mses.client_sha1
          (sha1 (protocol.scramble ++ sha1 mses.client_sha1))
    else [0]
  let payload : Buf :=
    [0x11] ++ mses.user ++ [0]
      ++ authField
      ++ mses.db ++ [0]
      ++ [protocol.charset % 256, protocol.charset / 256 % 256]
      ++ pluginName ++ [0]
  setByte3 payload.length ++ [0] ++ payload

/-! ## Packet framing -/

/-- Total on-wire length of the first packet of a buffer: header plus payload. -/
def packetTotalLen (b : Buf) : Nat := payloadLen b + 4

theorem packetTotalLen_pos (b : Buf) : 0 < packetTotalLen b := by
  simp [packetTotalLen]

/-- Core of `splitPackets`, structurally recursive on a fuel that the
caller sets to the buffer length (each step consumes at least one byte). -/
def splitPacketsGo : Nat → Buf → List Buf
  | 0, _ => []
  | _ + 1, [] => []
  | f + 1, x :: xs =>
    (x :: xs).take (packetTotalLen (x :: xs))
      :: splitPacketsGo f ((x :: xs).drop (packetTotalLen (x :: xs)))

/-- `modutil_get_next_MySQL_packet`, iterated: the list of packets of a
buffer, split at header boundaries. -/
def splitPackets (b : Buf) : List Buf := splitPacketsGo b.length b

theorem splitPacketsGo_nil (f : Nat) : splitPacketsGo f [] = [] := by
  cases f <;> rfl

theorem splitPacketsGo_eq_of_le (f : Nat) :
    ∀ g b, b.length ≤ f → b.length ≤ g →
      splitPacketsGo f b = splitPacketsGo g b := by
  induction f with
  | zero =>
    intro g b hf _
    have hb : b = [] := List.length_eq_zero.mp (Nat.le_zero.mp hf)
    subst hb
    rw [splitPacketsGo_nil, splitPacketsGo_nil]
  | succ f ih =>
    intro g b hf hg
    match b with
    | [] => rw [splitPacketsGo_nil, splitPacketsGo_nil]
    | x :: xs =>
      match g with
      | 0 => exact absurd hg (by simp)
      | g + 1 =>
        show _ :: _ = _ :: _
        congr 1
        apply ih
        · have := packetTotalLen_pos (x :: xs)
          simp only [List.length_drop, List.length_cons]
          simp at hf
          omega
        · have := packetTotalLen_pos (x :: xs)
          simp only [List.length_drop, List.length_cons]
          simp at hg
          omega

theorem splitPackets_cons (b : Buf) (h : b ≠ []) :
    splitPackets b
      = b.take (packetTotalLen b) :: splitPackets (b.drop (packetTotalLen b)) := by
  match b with
  | [] => exact absurd rfl h
  | x :: xs =>
    show splitPacketsGo (xs.length + 1) _ = _
    rw [splitPacketsGo]
    congr 1
    apply splitPacketsGo_eq_of_le
    · have := packetTotalLen_pos (x :: xs)
      simp only [List.length_drop, List.length_cons]
      omega
    · exact Nat.le_refl _

/-- Core of `wholePacketsLen`, with the same fuel convention. -/
def wholePacketsGo : Nat → Buf → Nat
  | 0, _ => 0
  | _ + 1, [] => 0
  | f + 1, x :: xs =>
    if (x :: xs).length < packetTotalLen (x :: xs) then 0
    else packetTotalLen (x :: xs)
      + wholePacketsGo f ((x :: xs).drop (packetTotalLen (x :: xs)))

/-- Length of the longest prefix of `b` made of complete packets
(`modutil_get_complete_packets` keeps this prefix and leaves the rest). -/
def wholePacketsLen (b : Buf) : Nat := wholePacketsGo b.length b

/-- Modelled from the spec (§4.1): `modutil_count_packets` walks the chain
counting packet headers; it is defined outside the verified sources. -/
def modutil_count_packets (b : Buf) : Nat := (splitPackets b).length

/-- Core of the ignore-replies drain loop, with the same fuel convention. -/
def drainGo : Nat → Buf → Buf → List Buf → Buf × List Buf
  | 0, reply, _, acc => (reply, acc.reverse)
  | _ + 1, reply, [], acc => (reply, acc.reverse)
  | f + 1, reply, x :: xs, acc =>
    drainGo f ((x :: xs).take (packetTotalLen (x :: xs)))
      ((x :: xs).drop (packetTotalLen (x :: xs))) (reply :: acc)

/-- The `while (read_buffer)` loop of the ignore-replies drain
(mysql_backend.cc:958): walk to the last packet, freeing the earlier ones.
Returns the kept packet and the dropped ones in order. -/
def drain_to_last (reply rest : Buf) (acc : List Buf) : Buf × List Buf :=
  drainGo rest.length reply rest acc

theorem drainGo_fst (f : Nat) :
    ∀ rest reply acc, rest.length ≤ f →
      (drainGo f reply rest acc).1 = (splitPackets rest).getLastD reply := by
  induction f with
  | zero =>
    intro rest reply acc h
    have hr : rest = [] := List.length_eq_zero.mp (Nat.le_zero.mp h)
    subst hr
    simp [drainGo, splitPackets, splitPacketsGo_nil]
  | succ f ih =>
    intro rest reply acc h
    match rest with
    | [] => simp [drainGo, splitPackets, splitPacketsGo_nil]
    | x :: xs =>
      rw [drainGo, ih _ _ _ ?_, splitPackets_cons (x :: xs) (by simp),
        List.getLastD_cons]
      have := packetTotalLen_pos (x :: xs)
      simp only [List.length_drop, List.length_cons]
      simp at h
      omega

/-- The packet the drain keeps is the last packet of the read. -/
theorem drain_to_last_fst (rest reply : Buf) (acc : List Buf) :
    (drain_to_last reply rest acc).1 = (splitPackets rest).getLastD reply :=
  drainGo_fst rest.length rest reply acc (Nat.le_refl _)

/-! ## Small predicates of the module -/

/-- `is_error_response` (mysql_backend.cc:327): the response holds an ERR
packet; `gwbuf_copy_data` must be able to fetch byte 4. -/
def is_error_response (b : Buf) : Bool :=
  4 < b.length && b.getD 4 0 == MYSQL_REPLY_ERR

/-- `expecting_text_result` (mysql_backend.cc:696). -/
def expecting_text_result (proto : MySQLProtocol) : Bool :=
  proto.current_command == MXS_COM_QUERY
  || proto.current_command == MXS_COM_STMT_EXECUTE
  || proto.current_command == MXS_COM_STMT_FETCH

/-- `expecting_ps_response` (mysql_backend.cc:710). -/
def expecting_ps_response (proto : MySQLProtocol) : Bool :=
  proto.current_command == MXS_COM_STMT_PREPARE

/-- `collecting_resultset` (mysql_backend.cc:747). -/
def collecting_resultset (proto : MySQLProtocol) (caps : Caps) : Bool :=
  caps.resultset_output || proto.collect_result

/-- `auth_change_requested` (mysql_backend.cc:774): an AuthSwitchRequest is
an 0xfe packet strictly longer than an EOF packet. -/
def auth_change_requested (b : Buf) : Bool :=
  getCommand b == MYSQL_REPLY_AUTHSWITCHREQUEST
  && MYSQL_EOF_PACKET_LEN < b.length

/-- `session_ok_to_route` (mysql_backend.cc:668), over the session
environment snapshot (the client DCB is assumed allocated, as in the
source, which dereferences it). -/
def session_ok_to_route (env : SessionEnv) : Bool :=
  env.session_state == SessionState.STARTED
  && env.client_dcb_state == DcbState.POLLING
  && (env.has_router_session || env.caps.no_rsession)
  && (if env.client_has_protocol then
        env.client_auth_state == AuthState.COMPLETE
      else env.client_is_internal)

/-- Modelled from the spec (§4.1, §6): `mxs_mysql_is_result_set` is defined
outside the verified sources; a response starts a result set when its first
payload byte is none of OK, ERR, EOF and LOCAL-INFILE. -/
def mxs_mysql_is_result_set (b : Buf) : Bool :=
  let c := getCommand b
  !(c == 0x00 || c == 0xff || c == 0xfe || c == 0xfb)

/-- Modelled from the spec (§4.6 result-set boundary detection):
`modutil_count_signal_packets` is defined outside the verified sources; it
counts the EOF terminator packets of a text result and reports whether the
last one carries the more-results flag (bit 3 of the low status byte). -/
def count_signal_packets (b : Buf) : Bool × Nat :=
  let pkts := splitPackets b
  let eofs := pkts.filter (fun p => getCommand p == 0xfe && payloadLen p ≤ 5)
  let more :=
    match eofs.getLast? with
    | some e => e.getD 7 0 % 16 / 8 == 1
    | none => false
  (more, eofs.length)

/-- Modelled from the spec (§4.1): `mxs_mysql_is_prep_stmt_ok` is defined
outside the verified sources; a COM_STMT_PREPARE OK starts with a zero
payload byte. -/
def mxs_mysql_is_prep_stmt_ok (b : Buf) : Bool :=
  4 < b.length && b.getD 4 0 == 0

/-- Modelled from the spec (§4.1) and the wire protocol:
`mxs_mysql_extract_ps_response` is defined outside the verified sources.
A COM_STMT_PREPARE OK payload is `[0x00][statement-id 4][column-count 2]
[parameter-count 2]...`; extraction needs the 12-byte fixed part. -/
def mxs_mysql_extract_ps_response (b : Buf) : Option (Nat × Nat) :=
  if b.getD 4 0 = 0 ∧ 12 ≤ payloadLen b ∧ 16 ≤ b.length then
    some (b.getD 9 0 + 256 * b.getD 10 0, b.getD 11 0 + 256 * b.getD 12 0)
  else none

/-- `complete_ps_response` (mysql_backend.cc:715): the expected packet count
starts at 1 for the OK header; the column block and the parameter block each
contribute their count plus one EOF, but only when the count is non-zero. -/
def complete_ps_response (b : Buf) : Bool :=
  match mxs_mysql_extract_ps_response b with
  | some resp =>
    let expected_packets := 1
    let expected_packets :=
      if 0 < resp.1 then expected_packets + resp.1 + 1 else expected_packets
    let expected_packets :=
      if 0 < resp.2 then expected_packets + resp.2 + 1 else expected_packets
    modutil_count_packets b == expected_packets
  | none => false

/-- The expected-packet formula exactly as the specification words it:
"column defs + 1 EOF + parameter defs + 1 EOF + the header OK". -/
def ps_expected_spec (columns parameters : Nat) : Nat :=
  columns + 1 + parameters + 1 + 1

/-- `prepare_for_write` (mysql_backend.cc:426). -/
def prepare_for_write (env : SessionEnv) (dcb : DCB) (buffer : GWBUF) :
    MySQLProtocol :=
  let proto := dcb.proto
  let proto :=
    if dcb.has_session then
      if env.caps.stmt_input then
        let proto :=
          if !proto.large_query && !env.load_active then
            { proto with current_command := getCommand buffer.data }
          else proto
        { proto with
            large_query := payloadLen buffer.data == MYSQL_PACKET_LENGTH_MAX }
      else if env.client_has_protocol then
        { proto with current_command := env.client_current_command }
      else proto
    else proto
  let proto :=
    if buffer.tags.collect_result then { proto with collect_result := true }
    else proto
  { proto with track_state := buffer.tags.track_state }

/-- `gw_connection_established` (mysql_backend.cc:2036). -/
def gw_connection_established (dcb : DCB) : Bool :=
  dcb.proto.protocol_auth_state == AuthState.COMPLETE
  && dcb.proto.ignore_replies == 0
  && dcb.proto.stored_query.isNone

/-- `handle_error_response` (mysql_backend.cc:339): the side effects driven
by the error code of an ERR packet received from the backend.  On
ER_HOST_IS_BLOCKED a task is posted to the main worker that puts the
server into maintenance; on the access-denied family the service user list
is refreshed. -/
def handle_error_response (b : Buf) : Effects :=
  let errcode := getErrcode b
  if errcode = ER_HOST_IS_BLOCKED then { maint_tasks := 1 }
  else if errcode = ER_ACCESS_DENIED_ERROR
      ∨ errcode = ER_DBACCESS_DENIED_ERROR
      ∨ errcode = ER_ACCESS_DENIED_NO_PASSWORD_ERROR then
    { user_refreshes := 1 }
  else {}

/-! ## The error funnel -/

/-- Bytes of a Lean string (the module's messages are ASCII). -/
def stringBytes (s : String) : Buf := s.data.map (fun c => c.toNat)

/-- Decimal rendering of a number, as bytes. -/
def natBytes (n : Nat) : Buf := stringBytes (toString n)

/-- `get_detailed_error` (mysql_backend.cc:603): append "(errno, strerror)"
when a socket error is known, or note a generated event.  `strerror` is the
libc oracle. -/
def get_detailed_error (strerror : Nat → Buf) (env : SessionEnv) : Buf :=
  if env.sock_errno ≠ 0 then
    stringBytes " (" ++ natBytes env.sock_errno ++ stringBytes ", "
      ++ strerror env.sock_errno ++ stringBytes ")"
  else if env.is_fake_event then stringBytes " (Generated event)"
  else []

/-- Modelled from the spec (§7, §6 Observability): `mysql_create_custom_error`
is defined outside the verified sources; it builds a well-formed MariaDB ERR
packet carrying the given sequence number: 3-byte little-endian payload
length, the sequence, the 0xff marker, error code 2003 and the SQL state
"#HY000" followed by the message. -/
def mysql_create_custom_error (seq affected : Nat) (msg : Buf) : Buf :=
  let payload := [MYSQL_REPLY_ERR, 0xd3, 0x07]
    ++ stringBytes "#HY000" ++ msg
  setByte3 payload.length ++ [seq % 256] ++ payload

/-- Result of one invocation of the error funnel. -/
structure HandleErrorResult where
  errbuf : Buf
  dcb : DCB
  assert_ok : Bool
  fx : Effects
deriving DecidableEq, Repr

/-- `do_handle_error` (mysql_backend.cc:620): build the client-visible error
packet with sequence 1, hand it to the router's error handler, and on a
failed handler mark the session and fake-hangup the client DCB.
`mxb_assert(!dcb->dcb_errhandle_called)` is compiled out of release builds;
the model records its truth in `assert_ok` and continues, as the release
code does.  The function does not set `dcb_errhandle_called` itself. -/
def do_handle_error (strerror : Nat → Buf) (env : SessionEnv) (dcb : DCB)
    (action : ErrAction) (errmsg : Buf) : HandleErrorResult :=
  let assert_ok := !dcb.dcb_errhandle_called
  let errbuf :=
    mysql_create_custom_error 1 0 (errmsg ++ get_detailed_error strerror env)
  let succp := env.router_succp
  { errbuf := errbuf
    dcb := dcb
    assert_ok := assert_ok
    fx := { notified := [action]
            err_packets := [errbuf]
            freed := [errbuf]
            client_hangups := if succp then 0 else 1
            handleerror_failed := !succp } }

/-- The message used by `gw_reply_on_error` (mysql_backend.cc:653). -/
def MSG_AUTH_FAILED : Buf :=
  stringBytes "Authentication with backend failed. Session will be closed."

/-- `gw_reply_on_error` (mysql_backend.cc:653): funnel the authentication
failure with action REPLY_CLIENT. -/
def gw_reply_on_error (strerror : Nat → Buf) (env : SessionEnv) (dcb : DCB) :
    HandleErrorResult :=
  do_handle_error strerror env dcb ErrAction.REPLY_CLIENT MSG_AUTH_FAILED

/-! ## COM_CHANGE_USER reply handling -/

/-- Modelled from the spec (§4.4, §4.6.5): `send_mysql_native_password_response`
is defined outside the verified sources; the core computes the standard
SHA1-scramble response from the stored password hash and the fresh scramble
carried by the AuthSwitchRequest, and writes it to the backend. -/
def send_mysql_native_password_response (sha1 : Buf → Buf)
    (ses : MYSQL_session) (reply : Buf) : GWBUF :=
  let new_scramble :=
    (reply.drop (5 + pluginName.length + 1)).take GW_MYSQL_SCRAMBLE_SIZE
  let token :=
    gw_str_xor (sha1 (new_scramble ++ sha1 ses.client_sha1)) ses.client_sha1
  { data := setByte3 token.length ++ [(reply.getD 3 0 + 1) % 256] ++ token }

/-- `handle_auth_change_response` (mysql_backend.cc:780): if the requested
plugin (the NUL-terminated name at payload offset 1) is the default
mysql_native_password, answer the request; the Bool is the outcome, the
Effects record the write. -/
def handle_auth_change_response (sha1 : Buf → Buf) (env : SessionEnv)
    (reply : Buf) : Bool × Effects :=
  if cStr (reply.drop 5) = pluginName then
    if env.dcb_write_ok then
      (true, { sent := [send_mysql_native_password_response sha1 env.client reply] })
    else (false, {})
  else (false, {})

/-! ## The write entry point -/

/-- Result of one invocation of an event handler that can rewrite the DCB. -/
structure WriteResult where
  rc : Nat
  dcb : DCB
  fx : Effects
deriving DecidableEq, Repr

/-- `gw_MySQLWrite_backend` (mysql_backend.cc:1156), the protocol write
entry point.  `sha1` is the hash oracle, `env` the session/service
environment.  `dcb_write` is modelled by `env.dcb_write_ok` deciding whether
the core writer accepts the buffer (recorded in `sent`). -/
def gw_MySQLWrite_backend (sha1 : Buf → Buf) (env : SessionEnv) (dcb : DCB)
    (queue : GWBUF) : WriteResult :=
  let bp := dcb.proto
  if dcb.was_persistent then
    -- asserts: fakeq/readq/delayq/writeq empty, persistentstart == 0
    let dcb1 := { dcb with
                   was_persistent := false
                   proto := { bp with ignore_replies := 0 } }
    if dcb1.state ≠ DcbState.POLLING
        ∨ bp.protocol_auth_state ≠ AuthState.COMPLETE then
      { rc := 0, dcb := dcb1, fx := { freed := [queue.data] } }
    else
      -- a stale stored query from the pooled life of the DCB is freed
      let staleFx : Effects :=
        match bp.stored_query with
        | some q => { freed := [q.data] }
        | none => {}
      let dcb2 := { dcb1 with proto := { dcb1.proto with stored_query := none } }
      if MYSQL_IS_COM_QUIT queue.data then
        -- COM_QUIT as the first write: drop it, the DCB goes back to the pool
        { rc := 1, dcb := dcb2
          fx := Effects.merge staleFx { freed := [queue.data] } }
      else
        let buf := gw_create_change_user_packet sha1 env.client dcb2.proto
        if env.dcb_write_ok then
          { rc := 1
            dcb := { dcb2 with proto := { dcb2.proto with
                       ignore_replies := dcb2.proto.ignore_replies + 1
                       stored_query := some queue } }
            fx := Effects.merge staleFx { sent := [buf] } }
        else
          { rc := 0, dcb := dcb2
            fx := Effects.merge staleFx { freed := [queue.data] } }
  else if 0 < bp.ignore_replies then
    if MYSQL_IS_COM_QUIT queue.data then
      -- COM_QUIT while a COM_CHANGE_USER is outstanding: close the DCB
      { rc := 0, dcb := dcb
        fx := { freed := [queue.data], fake_hangups := 1 } }
    else
      { rc := 1
        dcb := { dcb with proto := { bp with
                   stored_query := some (gwbuf_append bp.stored_query queue) } }
        fx := {} }
  else
    match bp.protocol_auth_state with
    | AuthState.HANDSHAKE_FAILED | AuthState.FAILED =>
      { rc := 0, dcb := dcb, fx := { freed := [queue.data] } }
    | AuthState.COMPLETE =>
      let cmd := getCommand queue.data
      let dcb := { dcb with proto := prepare_for_write env dcb queue }
      if cmd = MXS_COM_QUIT ∧ env.persistent_conns_enabled then
        -- keep pooled connections alive: the COM_QUIT is dropped
        { rc := 1, dcb := dcb, fx := { freed := [queue.data] } }
      else
        let dcb :=
          if queue.tags.ignorable then
            { dcb with proto := { dcb.proto with
                ignore_replies := dcb.proto.ignore_replies + 1 } }
          else dcb
        if env.dcb_write_ok then
          { rc := 1, dcb := dcb, fx := { sent := [queue] } }
        else
          { rc := 0, dcb := dcb, fx := {} }
    | _ =>
      -- authentication still in flight: store the data in the delay queue
      let dcb := { dcb with proto := prepare_for_write env dcb queue }
      { rc := 1
        dcb := { dcb with delayq := some (gwbuf_append dcb.delayq queue) }
        fx := {} }

/-! ## The steady-state read path -/

/-- Result of the steady-state read handler. -/
structure ReadResult where
  rc : Nat
  dcb : DCB
  fx : Effects
  forwarded : Option GWBUF := none
  kept_reply : Option Buf := none
deriving DecidableEq, Repr

/-- The tail of `gw_read_and_write` after the result-collection stage
(mysql_backend.cc:924 onwards): COM_CHANGE_USER bookkeeping, the
ignore-replies drain, and the emission loop. -/
def rw_after_collect (sha1 : Buf → Buf) (env : SessionEnv) (dcb : DCB)
    (read_buffer : Buf) (result_collected : Bool) : ReadResult :=
  let proto := dcb.proto
  if proto.changing_user ∧ auth_change_requested read_buffer
      ∧ (handle_auth_change_response sha1 env read_buffer).1 then
    -- the server merely regenerated a scramble: answer it and stop here
    { rc := 0, dcb := dcb
      fx := Effects.merge (handle_auth_change_response sha1 env read_buffer).2
              { freed := [read_buffer] } }
  else
    -- force sequence 3 on the final COM_CHANGE_USER reply (connector
    -- compatibility) and leave changing-user mode
    let pair : MySQLProtocol × Buf :=
      if proto.changing_user then
        ({ proto with changing_user := false }, read_buffer.set 3 3)
      else (proto, read_buffer)
    let proto := pair.1
    let read_buffer := pair.2
    let dcb := { dcb with proto := proto }
    if 0 < proto.ignore_replies then
      -- the reply to the synthesised COM_CHANGE_USER: keep only the last
      -- packet of this read and decrement the counter
      let query := proto.stored_query
      let proto := { proto with
                      stored_query := none
                      ignore_replies := proto.ignore_replies - 1 }
      let dcb := { dcb with proto := proto }
      let dl := drain_to_last (read_buffer.take (packetTotalLen read_buffer))
                  (read_buffer.drop (packetTotalLen read_buffer)) []
      let reply := dl.1
      let dropped := dl.2
      let result := getCommand reply
      if result = MYSQL_REPLY_OK then
        match query with
        | some q =>
          let w := gw_MySQLWrite_backend sha1 env dcb q
          { rc := w.rc, dcb := w.dcb
            forwarded := some q
            kept_reply := some reply
            fx := Effects.merge w.fx { freed := dropped ++ [reply] } }
        | none =>
          { rc := 1, dcb := dcb
            forwarded := none
            kept_reply := some reply
            fx := { freed := dropped ++ [reply] } }
      else if auth_change_requested reply then
        let h := handle_auth_change_response sha1 env reply
        if h.1 then
          -- keep the query parked until the re-authentication is resolved
          { rc := 0
            dcb := { dcb with proto := { dcb.proto with
                       stored_query := query
                       ignore_replies := dcb.proto.ignore_replies + 1 } }
            kept_reply := some reply
            fx := Effects.merge h.2 { freed := dropped ++ [reply] } }
        else
          -- switch to a plugin other than the default: fatal for this DCB
          { rc := 0, dcb := dcb
            kept_reply := some reply
            fx := Effects.merge h.2
              { fake_hangups := 1
                freed := dropped
                  ++ (match query with | some q => [q.data] | none => [])
                  ++ [reply] } }
      else
        let errfx :=
          if result = MYSQL_REPLY_ERR then handle_error_response reply else {}
        { rc := 0, dcb := dcb
          kept_reply := some reply
          fx := Effects.merge errfx
            { fake_hangups := 1
              freed := dropped
                ++ (match query with | some q => [q.data] | none => [])
                ++ [reply] } }
    else
      -- emission loop (mysql_backend.cc:1029)
      let stmts : List GWBUF :=
        if result_collected then
          [{ data := read_buffer, tags := { is_result := true } }]
        else if env.caps.stmt_output ∧ ¬ env.caps.resultset_output then
          (splitPackets read_buffer).map (fun p => { data := p })
        else
          [{ data := read_buffer }]
      if session_ok_to_route env then
        { rc := 1, dcb := dcb, fx := { replies := stmts } }
      else
        { rc := 0, dcb := dcb, fx := { freed := stmts.map GWBUF.data } }

/-- `gw_read_and_write` (mysql_backend.cc:806).  `readOutcome` is what
`dcb_read` produced: `none` for a read failure, `some bytes` otherwise
(framing into packets happens below, as in the source).  The session-track
parsing step only updates diagnostic fields and is not modelled. -/
def gw_read_and_write (sha1 : Buf → Buf) (strerror : Nat → Buf)
    (env : SessionEnv) (dcb : DCB) (readOutcome : Option Buf) : ReadResult :=
  match readOutcome with
  | none =>
    let h := do_handle_error strerror env dcb ErrAction.NEW_CONNECTION
      (stringBytes "Read from backend failed")
    { rc := 0, dcb := h.dcb, fx := h.fx }
  | some read_data =>
    if read_data.length = 0 then
      { rc := 0, dcb := dcb, fx := {} }
    else
      let proto := dcb.proto
      let caps := env.caps
      if caps.packet_output || caps.stmt_output || caps.contiguous_output
          || proto.collect_result || proto.ignore_replies ≠ 0 then
        let cplen := wholePacketsLen read_data
        let complete := read_data.take cplen
        let residue := read_data.drop cplen
        let dcb := { dcb with readq := residue }
        if complete = [] then
          { rc := 0, dcb := dcb, fx := {} }
        else
          let read_buffer := complete
          if caps.contiguous_output || proto.collect_result
              || proto.ignore_replies ≠ 0 then
            -- gwbuf_make_contiguous: a no-op on the flattened model (its
            -- out-of-memory path frees the read and raises a fake hangup)
            if collecting_resultset proto caps then
              if expecting_text_result proto then
                if mxs_mysql_is_result_set read_buffer then
                  let cs := count_signal_packets read_buffer
                  if cs.1 || cs.2 % 2 ≠ 0 then
                    -- incomplete result: put everything back in the readq
                    { rc := 0
                      dcb := { dcb with readq := read_buffer ++ dcb.readq }
                      fx := {} }
                  else
                    rw_after_collect sha1 env
                      { dcb with proto := { proto with collect_result := false } }
                      read_buffer true
                else
                  rw_after_collect sha1 env
                    { dcb with proto := { proto with collect_result := false } }
                    read_buffer true
              else if expecting_ps_response proto
                  ∧ mxs_mysql_is_prep_stmt_ok read_buffer
                  ∧ ¬ complete_ps_response read_buffer then
                { rc := 0
                  dcb := { dcb with readq := read_buffer ++ dcb.readq }
                  fx := {} }
              else
                rw_after_collect sha1 env
                  { dcb with proto := { proto with collect_result := false } }
                  read_buffer true
            else
              rw_after_collect sha1 env dcb read_buffer false
          else
            rw_after_collect sha1 env dcb read_buffer false
      else
        rw_after_collect sha1 env dcb read_data false

/-! ## The read event handler and the authentication exchange -/

/-- Oracles for the calls into the authenticator plugin interface and the
handshake helpers of the shared protocol library (outside the verified
sources; the interface is the spec's §4.4). -/
structure AuthOracle where
  handshake_ok : Buf → Bool
  send_auth : Buf → AuthState
  extract_ok : Buf → Bool
  authenticate : Buf → AuthRes

/-- `handle_server_response` (mysql_backend.cc:391). -/
def handle_server_response (o : AuthOracle) (proto : MySQLProtocol) (b : Buf) :
    AuthState :=
  let rval :=
    if proto.protocol_auth_state = AuthState.CONNECTED then
      AuthState.HANDSHAKE_FAILED
    else AuthState.FAILED
  if o.extract_ok b then
    match o.authenticate b with
    | AuthRes.INCOMPLETE => AuthState.RESPONSE_SENT
    | AuthRes.SSL_INCOMPLETE => AuthState.RESPONSE_SENT
    | AuthRes.SUCCEEDED => AuthState.COMPLETE
    | AuthRes.FAILED => rval
  else rval

/-- `backend_write_delayqueue` (mysql_backend.cc:1439): flush the delay
queue once authentication completed; a stored COM_CHANGE_USER is recreated
with the backend's scramble; a COM_QUIT towards a poolable server is
dropped; a failed write funnels NEW_CONNECTION. -/
def backend_write_delayqueue (sha1 : Buf → Buf) (strerror : Nat → Buf)
    (env : SessionEnv) (dcb : DCB) (buffer : GWBUF) : WriteResult :=
  let buffer :=
    if MYSQL_IS_CHANGE_USER buffer.data then
      gw_create_change_user_packet sha1 env.client dcb.proto
    else buffer
  if MYSQL_IS_COM_QUIT buffer.data ∧ env.persistent_conns_enabled then
    { rc := 1, dcb := dcb, fx := { freed := [buffer.data] } }
  else if env.dcb_write_ok then
    { rc := 1, dcb := dcb, fx := { sent := [buffer] } }
  else
    let h := do_handle_error strerror env dcb ErrAction.NEW_CONNECTION
      (stringBytes "Lost connection to backend server while writing delay queue.")
    { rc := 0, dcb := h.dcb, fx := h.fx }

/-- What `read_complete_packet` produced while authentication was still in
flight: an I/O failure, no complete packet yet, or one complete
(contiguous) server response. -/
inductive HandshakeRead
  | ioError
  | pending
  | packet (b : Buf)
deriving DecidableEq, Repr

/-- `gw_read_backend_event` (mysql_backend.cc:500), the EPOLLIN handler.
A read event on a pooled DCB (non-zero `persistentstart`) is treated as an
error: a fake hangup is raised and nothing is read.  In state COMPLETE the
steady-state path runs on `steadyRead`; otherwise the authentication state
machine consumes `hsRead`. -/
def gw_read_backend_event (sha1 : Buf → Buf) (strerror : Nat → Buf)
    (o : AuthOracle) (env : SessionEnv) (dcb : DCB)
    (steadyRead : Option Buf) (hsRead : HandshakeRead) : ReadResult :=
  if dcb.persistentstart ≠ 0 then
    { rc := 0, dcb := dcb, fx := { fake_hangups := 1 } }
  else if dcb.proto.protocol_auth_state = AuthState.COMPLETE then
    gw_read_and_write sha1 strerror env dcb steadyRead
  else
    match hsRead with
    | HandshakeRead.ioError =>
      let dcb := { dcb with proto := { dcb.proto with
                    protocol_auth_state := AuthState.FAILED } }
      let h := gw_reply_on_error strerror env dcb
      { rc := 0, dcb := h.dcb, fx := h.fx }
    | HandshakeRead.pending =>
      if dcb.proto.protocol_auth_state = AuthState.CONNECTED
          ∧ env.ssl_established then
        { rc := 0
          dcb := { dcb with proto := { dcb.proto with
                    protocol_auth_state := o.send_auth [] } }
          fx := {} }
      else
        { rc := 0, dcb := dcb, fx := {} }
    | HandshakeRead.packet b =>
      -- the response is made contiguous first (a no-op here)
      let isErr := is_error_response b
      let st1 :=
        if isErr then AuthState.FAILED else dcb.proto.protocol_auth_state
      let fxErr := if isErr then handle_error_response b else ({} : Effects)
      let st2 :=
        if st1 = AuthState.CONNECTED then
          if o.handshake_ok b then o.send_auth b else AuthState.FAILED
        else if st1 = AuthState.RESPONSE_SENT then
          handle_server_response o dcb.proto b
        else st1
      let dcb := { dcb with proto := { dcb.proto with
                    protocol_auth_state := st2 } }
      if st2 = AuthState.COMPLETE then
        match dcb.delayq with
        | some localq =>
          let dcb := { dcb with delayq := none }
          let dcb := { dcb with proto := prepare_for_write env dcb localq }
          let w := backend_write_delayqueue sha1 strerror env dcb localq
          { rc := w.rc, dcb := w.dcb
            fx := Effects.merge fxErr (Effects.merge w.fx { freed := [b] }) }
        | none =>
          { rc := 0, dcb := dcb
            fx := Effects.merge fxErr { freed := [b] } }
      else if st2 = AuthState.FAILED ∨ st2 = AuthState.HANDSHAKE_FAILED then
        let h := gw_reply_on_error strerror env dcb
        { rc := 0, dcb := h.dcb
          fx := Effects.merge fxErr (Effects.merge h.fx { freed := [b] }) }
      else
        { rc := 0, dcb := dcb
          fx := Effects.merge fxErr { freed := [b] } }

/-! ## Concrete fixtures shared by witnesses and counterexamples -/

/-- A concrete 20-byte hash oracle standing in for SHA1. -/
def sha1c : Buf → Buf := fun b => (List.range 20).map (fun i => (i + b.length) % 256)

/-- A concrete strerror oracle. -/
def strerror0 : Nat → Buf := fun _ => stringBytes "Connection refused"

/-- A concrete authenticator oracle. -/
def oracle0 : AuthOracle :=
  ⟨fun _ => true, fun _ => AuthState.RESPONSE_SENT,
   fun _ => true, fun _ => AuthRes.SUCCEEDED⟩

/-- Credential snapshot without a password (user "u", schema "d"). -/
def mses0 : MYSQL_session := ⟨[117], [100], null_client_sha1⟩

/-- Credential snapshot with a password hash set. -/
def msesP : MYSQL_session := ⟨[117], [100], (List.range 20).map (fun i => i + 1)⟩

/-- A backend protocol in steady state. -/
def proto0 : MySQLProtocol :=
  { protocol_auth_state := AuthState.COMPLETE
    ignore_replies := 0
    stored_query := none
    changing_user := false
    current_command := MXS_COM_QUERY
    large_query := false
    collect_result := false
    track_state := false
    charset := 8
    scramble := (List.range 20).map (fun i => i + 40) }

/-- A healthy polling backend DCB. -/
def dcb0 : DCB :=
  { state := DcbState.POLLING
    persistentstart := 0
    was_persistent := false
    dcb_errhandle_called := false
    has_session := true
    readq := []
    delayq := none
    proto := proto0 }

/-- A statement-routing environment. -/
def env0 : SessionEnv :=
  { client := mses0
    caps := { stmt_output := true }
    load_active := false
    client_has_protocol := true
    client_current_command := MXS_COM_QUERY
    session_state := SessionState.STARTED
    client_dcb_state := DcbState.POLLING
    client_auth_state := AuthState.COMPLETE
    client_is_internal := false
    has_router_session := true
    persistent_conns_enabled := true
    ssl_established := false
    dcb_write_ok := true
    router_succp := true
    sock_errno := 0
    is_fake_event := false }

/-- The request COM_QUERY "SELECT 1". -/
def queryBuf : GWBUF := { data := [9, 0, 0, 0, 3, 83, 69, 76, 69, 67, 84, 32, 49] }

/-- A COM_QUIT request. -/
def quitBuf : GWBUF := { data := [1, 0, 0, 0, 1] }

/-- An OK packet with sequence 3 (the final COM_CHANGE_USER reply shape). -/
def okPacket3 : Buf := [7, 0, 0, 3, 0, 0, 0, 2, 0, 0, 0]

/-- A single COM_STMT_PREPARE OK packet: statement id 1, zero columns,
zero parameters. -/
def psOkBuf : Buf := [12, 0, 0, 1, 0, 1, 0, 0, 0, 0, 0, 0, 0, 0, 0, 0]

/-! ## Claim C5 -/

/-- Claim C5 (confirmed): for every read event delivered to a backend DCB
whose pool-start timestamp is non-zero, the read handler raises one fake
hangup event and returns 0 without reading from the socket or modifying the
DCB - in particular its read queue. -/
theorem claim_C5_pooled_read (sha1 : Buf → Buf) (strerror : Nat → Buf)
    (o : AuthOracle) (env : SessionEnv) (dcb : DCB)
    (steadyRead : Option Buf) (hsRead : HandshakeRead)
    (h : dcb.persistentstart ≠ 0) :
    gw_read_backend_event sha1 strerror o env dcb steadyRead hsRead
      = { rc := 0, dcb := dcb, fx := { fake_hangups := 1 } } := by
  simp [gw_read_backend_event, h]

/-- Witness for C5 at a concrete pooled DCB. -/
theorem claim_C5_pooled_read_witness :
    ({ dcb0 with persistentstart := 5 } : DCB).persistentstart ≠ 0
    ∧ gw_read_backend_event sha1c strerror0 oracle0 env0
        { dcb0 with persistentstart := 5 } none HandshakeRead.pending
      = { rc := 0, dcb := { dcb0 with persistentstart := 5 }
          fx := { fake_hangups := 1 } } :=
  ⟨by decide, claim_C5_pooled_read _ _ _ _ _ _ _ (by decide)⟩

/-! ## Claim C6 -/

/-- Claim C6 (confirmed): for every write on a backend DCB with
ignore-replies > 0 and was-persistent clear: a COM_QUIT request is freed,
the DCB is force-closed through a fake hangup and the call returns 0; any
other request is appended to the stored query, nothing reaches the socket,
and the call returns 1. -/
theorem claim_C6_write_while_draining (sha1 : Buf → Buf) (env : SessionEnv)
    (dcb : DCB) (queue : GWBUF)
    (hwp : dcb.was_persistent = false)
    (hir : 0 < dcb.proto.ignore_replies) :
    (getCommand queue.data = MXS_COM_QUIT →
      gw_MySQLWrite_backend sha1 env dcb queue
        = { rc := 0, dcb := dcb
            fx := { freed := [queue.data], fake_hangups := 1 } })
    ∧ (getCommand queue.data ≠ MXS_COM_QUIT →
      gw_MySQLWrite_backend sha1 env dcb queue
        = { rc := 1
            dcb := { dcb with proto := { dcb.proto with
                stored_query := some (gwbuf_append dcb.proto.stored_query queue) } }
            fx := {} }
      ∧ (gwbuf_append dcb.proto.stored_query queue).data
          = (dcb.proto.stored_query.elim [] GWBUF.data) ++ queue.data) := by
  constructor
  · intro hq
    simp [gw_MySQLWrite_backend, hwp, hir, MYSQL_IS_COM_QUIT, hq]
  · intro hq
    refine ⟨by simp [gw_MySQLWrite_backend, hwp, hir, MYSQL_IS_COM_QUIT, hq], ?_⟩
    cases h : dcb.proto.stored_query <;> simp [gwbuf_append, h]

/-- A protocol still draining one ignorable reply, with a parked query. -/
def protoIR : MySQLProtocol :=
  { proto0 with ignore_replies := 1, stored_query := some queryBuf }

/-- The DCB carrying `protoIR`. -/
def dcbIR : DCB := { dcb0 with proto := protoIR }

/-- Witness for C6: a second COM_QUERY arriving while the COM_CHANGE_USER
reply is still outstanding is parked behind the stored query. -/
theorem claim_C6_write_while_draining_witness :
    (dcbIR.was_persistent = false ∧ 0 < dcbIR.proto.ignore_replies)
    ∧ ((getCommand queryBuf.data = MXS_COM_QUIT →
      gw_MySQLWrite_backend sha1c env0 dcbIR queryBuf
        = { rc := 0, dcb := dcbIR
            fx := { freed := [queryBuf.data], fake_hangups := 1 } })
    ∧ (getCommand queryBuf.data ≠ MXS_COM_QUIT →
      gw_MySQLWrite_backend sha1c env0 dcbIR queryBuf
        = { rc := 1
            dcb := { dcbIR with proto := { dcbIR.proto with
              stored_query := some (gwbuf_append dcbIR.proto.stored_query queryBuf) } }
            fx := {} }
      ∧ (gwbuf_append dcbIR.proto.stored_query queryBuf).data
          = (dcbIR.proto.stored_query.elim [] GWBUF.data) ++ queryBuf.data)) :=
  ⟨⟨by decide, by decide⟩,
   claim_C6_write_while_draining sha1c env0 dcbIR queryBuf (by decide) (by decide)⟩

/-! ## Claim C7 -/

/-- Claim C7 (corrected): for every buffer from which the prepared-statement
response header yields column count `c` and parameter count `p`, the
completeness check succeeds exactly when the observed packet count equals
1 (the OK header) plus, when `c > 0`, `c` column definitions and one EOF,
plus, when `p > 0`, `p` parameter definitions and one EOF.  The
specification's unconditional formula counts both EOF packets even when the
corresponding block is empty. -/
theorem claim_C7_ps_complete (b : Buf) (c p : Nat)
    (h : mxs_mysql_extract_ps_response b = some (c, p)) :
    complete_ps_response b = true
      ↔ modutil_count_packets b
          = 1 + (if 0 < c then c + 1 else 0) + (if 0 < p then p + 1 else 0) := by
  simp only [complete_ps_response, h, beq_iff_eq]
  split_ifs <;> constructor <;> intro hx <;> omega

/-- Witness for C7 at a one-packet prepared-statement OK with no columns
and no parameters. -/
theorem claim_C7_ps_complete_witness :
    mxs_mysql_extract_ps_response psOkBuf = some (0, 0)
    ∧ (complete_ps_response psOkBuf = true
      ↔ modutil_count_packets psOkBuf
          = 1 + (if 0 < 0 then 0 + 1 else 0) + (if 0 < 0 then 0 + 1 else 0)) :=
  ⟨by decide, claim_C7_ps_complete psOkBuf 0 0 (by decide)⟩

/-- Counterexample to C7 as stated: a prepared-statement OK reply with zero
columns and zero parameters is declared complete by the source at one
observed packet, while the spec formula "column defs + 1 EOF + parameter
defs + 1 EOF + the header OK" demands three. -/
theorem claim_C7_counterexample :
    mxs_mysql_extract_ps_response psOkBuf = some (0, 0)
    ∧ complete_ps_response psOkBuf = true
    ∧ modutil_count_packets psOkBuf ≠ ps_expected_spec 0 0 := by decide

/-! ## Claim C10 -/

/-- Claim C10 (confirmed): the connection-established predicate holds
exactly when the protocol auth state is COMPLETE, ignore-replies is zero
and no stored query is pending; in particular a DCB freshly adopted from
the pool - whose adoption write left ignore-replies at one - reports not
established although its auth state is COMPLETE. -/
theorem claim_C10_connection_established (dcb : DCB) :
    (gw_connection_established dcb = true
      ↔ dcb.proto.protocol_auth_state = AuthState.COMPLETE
        ∧ dcb.proto.ignore_replies = 0
        ∧ dcb.proto.stored_query = none)
    ∧ (gw_connection_established
        (gw_MySQLWrite_backend sha1c env0
          { dcb0 with was_persistent := true } queryBuf).dcb = false
      ∧ (gw_MySQLWrite_backend sha1c env0
          { dcb0 with was_persistent := true } queryBuf).dcb.proto.protocol_auth_state
          = AuthState.COMPLETE
      ∧ (gw_MySQLWrite_backend sha1c env0
          { dcb0 with was_persistent := true } queryBuf).dcb.proto.ignore_replies
          = 1) := by
  refine ⟨?_, by decide⟩
  simp [gw_connection_established, Option.isNone_iff_eq_none, and_assoc]

/-! ## Claim C3 -/

theorem getByte3_setByte3_append (n : Nat) (rest : Buf) (h : n < 16777216) :
    getByte3 (setByte3 n ++ rest) = n := by
  simp [getByte3, setByte3]
  omega

theorem gw_str_xor_comm (a b : Buf) : gw_str_xor a b = gw_str_xor b a := by
  unfold gw_str_xor
  exact List.zipWith_comm_of_comm _ (fun x y => Nat.xor_comm x y) a b

/-- The payload is bounded by the name lengths plus the fixed parts. -/
theorem change_user_payload_length_le (sha1 : Buf → Buf) (mses : MYSQL_session)
    (protocol : MySQLProtocol) (h20 : ∀ x, (sha1 x).length = 20) :
    (change_user_payload sha1 mses protocol).length
      ≤ mses.user.length + mses.db.length + 48 := by
  have hdb : ((if 0 < mses.db.length then some mses.db else none).getD []).length
      = mses.db.length := by
    split
    · rfl
    · simp_all [List.length_eq_zero]
  by_cases hpw : mses.client_sha1 = null_client_sha1 <;>
    simp only [change_user_payload, ne_eq, hpw, not_true_eq_false,
      not_false_eq_true, if_true, if_false, ite_true, ite_false,
      List.length_append, List.length_cons, hdb, gw_str_xor,
      List.length_zipWith, h20, pluginName] <;>
    simp <;> omega

/-- Claim C3 (corrected): the synthesised COM_CHANGE_USER buffer carries
sequence 0 and a 3-byte header length equal to the payload length; it is
tagged SHOULD_COLLECT_RESULT; and the payload is the command byte 0x11, the
user plus NUL, then either the scramble length 20 followed by the 20-byte
token xor(sha1(password), sha1(scramble concat sha1(sha1(password)))) when
a password is set or a single NUL otherwise, the default schema plus NUL,
then the low byte of the charset followed by a zero byte - not the full
little-endian charset the specification states - and finally the plugin
name "mysql_native_password" plus NUL. -/
theorem claim_C3_change_user_packet (sha1 : Buf → Buf) (mses : MYSQL_session)
    (protocol : MySQLProtocol)
    (h20 : ∀ x, (sha1 x).length = 20)
    (hsz : mses.user.length + mses.db.length < 16777100) :
    let pkt := gw_create_change_user_packet sha1 mses protocol
    pkt.tags.collect_result = true
    ∧ pkt.data.getD 3 0 = 0
    ∧ getByte3 pkt.data = pkt.data.length - 4
    ∧ pkt.data.drop 4
        = [0x11] ++ mses.user ++ [0]
          ++ (if mses.client_sha1 ≠ null_client_sha1 then
                GW_MYSQL_SCRAMBLE_SIZE ::
                  gw_str_xor mses.client_sha1
                    (sha1 (protocol.scramble ++ sha1 mses.client_sha1))
              else [0])
          ++ mses.db ++ [0]
          ++ [protocol.charset % 256, 0]
          ++ pluginName ++ [0]
    ∧ (mses.client_sha1 ≠ null_client_sha1 → mses.client_sha1.length = 20 →
        (gw_str_xor mses.client_sha1
          (sha1 (protocol.scramble ++ sha1 mses.client_sha1))).length = 20) := by
  have hlen : (change_user_payload sha1 mses protocol).length < 16777216 := by
    have := change_user_payload_length_le sha1 mses protocol h20
    omega
  have hdb : (if 0 < mses.db.length then some mses.db else none).getD []
      = mses.db := by
    split
    · rfl
    · simp_all [List.length_eq_zero]
  refine ⟨rfl, ?_, ?_, ?_, ?_⟩
  · simp [gw_create_change_user_packet, setByte3]
  · simp only [gw_create_change_user_packet, setByte3, getByte3,
      List.cons_append, List.nil_append, List.getD_cons_zero,
      List.getD_cons_succ, List.length_cons, List.length_append]
    omega
  · simp only [gw_create_change_user_packet, setByte3, List.cons_append,
      List.nil_append, List.drop_succ_cons, List.drop_zero]
    unfold change_user_payload
    by_cases hpw : mses.client_sha1 = null_client_sha1
    · simp only [hpw, ne_eq, not_true_eq_false, if_false, ite_false, hdb]
      simp [hdb]
    · simp only [ne_eq, hpw, not_false_eq_true, if_true, ite_true, hdb]
      simp [hdb, gw_str_xor_comm mses.client_sha1]
  · intro hpw h20'
    simp only [gw_str_xor, List.length_zipWith, h20, h20']
    omega

/-- A protocol whose charset value does not fit one byte. -/
def protoCS : MySQLProtocol := { proto0 with charset := 256 }

/-- Counterexample to C3 as stated: with charset 256 the packet the source
builds differs from the specified layout, whose charset field is the full
2-byte little-endian value; the source emits the low byte and then zero. -/
theorem claim_C3_counterexample :
    (gw_create_change_user_packet sha1c mses0 protoCS).data
      ≠ change_user_packet_spec sha1c mses0 protoCS := by decide

/-- Witness for C3 at a concrete snapshot with a password set. -/
theorem claim_C3_change_user_packet_witness :
    (∀ x, (sha1c x).length = 20)
    ∧ msesP.user.length + msesP.db.length < 16777100
    ∧ (let pkt := gw_create_change_user_packet sha1c msesP proto0
       pkt.tags.collect_result = true
       ∧ pkt.data.getD 3 0 = 0
       ∧ getByte3 pkt.data = pkt.data.length - 4
       ∧ pkt.data.drop 4
           = [0x11] ++ msesP.user ++ [0]
             ++ (if msesP.client_sha1 ≠ null_client_sha1 then
                   GW_MYSQL_SCRAMBLE_SIZE ::
                     gw_str_xor msesP.client_sha1
                       (sha1c (proto0.scramble ++ sha1c msesP.client_sha1))
                 else [0])
             ++ msesP.db ++ [0]
             ++ [proto0.charset % 256, 0]
             ++ pluginName ++ [0]
       ∧ (msesP.client_sha1 ≠ null_client_sha1 → msesP.client_sha1.length = 20 →
           (gw_str_xor msesP.client_sha1
             (sha1c (proto0.scramble ++ sha1c msesP.client_sha1))).length = 20)) :=
  ⟨fun x => rfl, by decide,
   claim_C3_change_user_packet sha1c msesP proto0 (fun x => rfl) (by decide)⟩

/-! ## Claim C4 -/

/-- A statement-input environment. -/
def envSI : SessionEnv :=
  { env0 with caps := { stmt_output := true, stmt_input := true } }

/-- A COM_QUERY packet header announcing the 24-bit maximum payload. -/
def bufMax : GWBUF := { data := [255, 255, 255, 0, 3] }

/-- The 100-byte continuation packet of a large query. -/
def bufCont : GWBUF := { data := [100, 0, 0, 1, 77] }

/-- A COM_STMT_PREPARE packet header announcing the 24-bit maximum payload. -/
def bufMaxPrep : GWBUF := { data := [255, 255, 255, 0, 22] }

/-- Claim C4 (corrected): on a DCB with a session whose service declares
statement input (RCAP_TYPE_STMT_INPUT), preparing a write copies the
packet's command byte into current-command unless the previous packet set
the large-query flag or a LOAD DATA LOCAL stream is active, and it sets
large-query exactly when the payload length equals the 24-bit maximum; in
particular a maximum-size COM_QUERY followed by a 100-byte continuation
keeps current-command at COM_QUERY without re-extraction.  Without the
statement-input capability the command is copied from the client protocol
instead and large-query is left untouched. -/
theorem claim_C4_prepare_for_write (env : SessionEnv) (dcb : DCB)
    (buffer : GWBUF)
    (hs : dcb.has_session = true) (hin : env.caps.stmt_input = true) :
    ((prepare_for_write env dcb buffer).current_command
      = if dcb.proto.large_query = false ∧ env.load_active = false
        then getCommand buffer.data else dcb.proto.current_command)
    ∧ ((prepare_for_write env dcb buffer).large_query = true
        ↔ payloadLen buffer.data = MYSQL_PACKET_LENGTH_MAX)
    ∧ ((prepare_for_write envSI dcb0 bufMax).current_command = MXS_COM_QUERY
       ∧ (prepare_for_write envSI dcb0 bufMax).large_query = true
       ∧ (prepare_for_write envSI
            { dcb0 with proto := prepare_for_write envSI dcb0 bufMax }
            bufCont).current_command = MXS_COM_QUERY
       ∧ (prepare_for_write envSI
            { dcb0 with proto := prepare_for_write envSI dcb0 bufMax }
            bufCont).large_query = false) := by
  refine ⟨?_, ?_, by decide⟩
  · unfold prepare_for_write
    by_cases h1 : dcb.proto.large_query <;> by_cases h2 : env.load_active <;>
      by_cases h3 : buffer.tags.collect_result <;>
      simp [hs, hin, h1, h2, h3]
  · unfold prepare_for_write
    by_cases h1 : dcb.proto.large_query <;> by_cases h2 : env.load_active <;>
      by_cases h3 : buffer.tags.collect_result <;>
      simp [hs, hin, h1, h2, h3, beq_iff_eq]

/-- Witness for C4 on a concrete statement-input write. -/
theorem claim_C4_prepare_for_write_witness :
    (dcb0.has_session = true ∧ envSI.caps.stmt_input = true)
    ∧ (((prepare_for_write envSI dcb0 queryBuf).current_command
        = if dcb0.proto.large_query = false ∧ envSI.load_active = false
          then getCommand queryBuf.data else dcb0.proto.current_command)
      ∧ ((prepare_for_write envSI dcb0 queryBuf).large_query = true
          ↔ payloadLen queryBuf.data = MYSQL_PACKET_LENGTH_MAX)
      ∧ ((prepare_for_write envSI dcb0 bufMax).current_command = MXS_COM_QUERY
        ∧ (prepare_for_write envSI dcb0 bufMax).large_query = true
        ∧ (prepare_for_write envSI
              { dcb0 with proto := prepare_for_write envSI dcb0 bufMax }
              bufCont).current_command = MXS_COM_QUERY
        ∧ (prepare_for_write envSI
              { dcb0 with proto := prepare_for_write envSI dcb0 bufMax }
              bufCont).large_query = false)) :=
  ⟨⟨by decide, by decide⟩,
   claim_C4_prepare_for_write envSI dcb0 queryBuf (by decide) (by decide)⟩

/-- Counterexample to C4 as stated: for a service without
RCAP_TYPE_STMT_INPUT, a maximum-size COM_STMT_PREPARE packet neither has
its command byte extracted (the client protocol's tracked command is copied
instead) nor sets the large-query flag, though no large-query continuation
or LOAD DATA stream is active. -/
theorem claim_C4_counterexample :
    dcb0.has_session = true
    ∧ dcb0.proto.protocol_auth_state = AuthState.COMPLETE
    ∧ dcb0.proto.large_query = false
    ∧ env0.load_active = false
    ∧ payloadLen bufMaxPrep.data = MYSQL_PACKET_LENGTH_MAX
    ∧ (prepare_for_write env0 dcb0 bufMaxPrep).current_command
        ≠ getCommand bufMaxPrep.data
    ∧ (prepare_for_write env0 dcb0 bufMaxPrep).large_query = false := by decide

/-! ## Claim C1 -/

/-- A DCB freshly adopted from the persistent pool. -/
def dcbWasP : DCB := { dcb0 with was_persistent := true }

/-- Claim C1 (corrected): a write on a just-adopted backend DCB in polling
state with auth state COMPLETE, for a request that is not COM_QUIT and with
the core writer accepting the buffer, clears was-persistent, discards any
previously stored query, sends exactly the synthesised COM_CHANGE_USER
built from the adopting session's credential snapshot, leaves
ignore-replies at 1, parks the request in stored-query and returns success;
the request itself is not written.  For a COM_QUIT request the source
instead frees the request and returns success without sending anything. -/
theorem claim_C1_adoption_write (sha1 : Buf → Buf) (env : SessionEnv)
    (dcb : DCB) (queue : GWBUF)
    (hwp : dcb.was_persistent = true)
    (hpoll : dcb.state = DcbState.POLLING)
    (hauth : dcb.proto.protocol_auth_state = AuthState.COMPLETE)
    (hcmd : getCommand queue.data ≠ MXS_COM_QUIT)
    (hok : env.dcb_write_ok = true) :
    (gw_MySQLWrite_backend sha1 env dcb queue).rc = 1
    ∧ (gw_MySQLWrite_backend sha1 env dcb queue).dcb.was_persistent = false
    ∧ (gw_MySQLWrite_backend sha1 env dcb queue).dcb.proto.ignore_replies = 1
    ∧ (gw_MySQLWrite_backend sha1 env dcb queue).dcb.proto.stored_query
        = some queue
    ∧ (gw_MySQLWrite_backend sha1 env dcb queue).fx.sent
        = [gw_create_change_user_packet sha1 env.client
            { dcb.proto with ignore_replies := 0, stored_query := none }]
    ∧ getCommand (gw_create_change_user_packet sha1 env.client
        { dcb.proto with ignore_replies := 0, stored_query := none }).data
        = MXS_COM_CHANGE_USER
    ∧ (gw_MySQLWrite_backend sha1 env dcb queue).fx.replies = []
    ∧ (∀ q, dcb.proto.stored_query = some q →
        q.data ∈ (gw_MySQLWrite_backend sha1 env dcb queue).fx.freed) := by
  have hq : MYSQL_IS_COM_QUIT queue.data = false := by
    simp [MYSQL_IS_COM_QUIT, hcmd]
  have hcmd17 : getCommand (gw_create_change_user_packet sha1 env.client
      { dcb.proto with ignore_replies := 0, stored_query := none }).data
      = MXS_COM_CHANGE_USER := by
    simp [gw_create_change_user_packet, change_user_payload, setByte3,
      getCommand, MXS_COM_CHANGE_USER]
  refine ⟨?_, ?_, ?_, ?_, ?_, hcmd17, ?_, ?_⟩ <;>
    cases hsq : dcb.proto.stored_query <;>
      simp [gw_MySQLWrite_backend, hwp, hpoll, hauth, hq, hok, hsq,
        Effects.merge]

/-- Witness for C1: adopting `dcbWasP` with a COM_QUERY. -/
theorem claim_C1_adoption_write_witness :
    (dcbWasP.was_persistent = true
      ∧ dcbWasP.state = DcbState.POLLING
      ∧ dcbWasP.proto.protocol_auth_state = AuthState.COMPLETE
      ∧ getCommand queryBuf.data ≠ MXS_COM_QUIT
      ∧ env0.dcb_write_ok = true)
    ∧ ((gw_MySQLWrite_backend sha1c env0 dcbWasP queryBuf).rc = 1
      ∧ (gw_MySQLWrite_backend sha1c env0 dcbWasP queryBuf).dcb.was_persistent
          = false
      ∧ (gw_MySQLWrite_backend sha1c env0 dcbWasP queryBuf).dcb.proto.ignore_replies
          = 1
      ∧ (gw_MySQLWrite_backend sha1c env0 dcbWasP queryBuf).dcb.proto.stored_query
          = some queryBuf
      ∧ (gw_MySQLWrite_backend sha1c env0 dcbWasP queryBuf).fx.sent
          = [gw_create_change_user_packet sha1c env0.client
              { dcbWasP.proto with ignore_replies := 0, stored_query := none }]
      ∧ getCommand (gw_create_change_user_packet sha1c env0.client
          { dcbWasP.proto with ignore_replies := 0, stored_query := none }).data
          = MXS_COM_CHANGE_USER
      ∧ (gw_MySQLWrite_backend sha1c env0 dcbWasP queryBuf).fx.replies = []
      ∧ (∀ q, dcbWasP.proto.stored_query = some q →
          q.data ∈ (gw_MySQLWrite_backend sha1c env0 dcbWasP queryBuf).fx.freed)) :=
  ⟨⟨by decide, by decide, by decide, by decide, by decide⟩,
   claim_C1_adoption_write sha1c env0 dcbWasP queryBuf
     (by decide) (by decide) (by decide) (by decide) (by decide)⟩

/-- Counterexample to C1 as stated: a COM_QUIT written to a just-adopted
DCB in qualifying state returns success but sends no COM_CHANGE_USER,
leaves ignore-replies at 0 and parks nothing, contradicting the claimed
behaviour for every qualifying write. -/
theorem claim_C1_counterexample :
    dcbWasP.was_persistent = true
    ∧ dcbWasP.state = DcbState.POLLING
    ∧ dcbWasP.proto.protocol_auth_state = AuthState.COMPLETE
    ∧ (gw_MySQLWrite_backend sha1c env0 dcbWasP quitBuf).rc = 1
    ∧ (gw_MySQLWrite_backend sha1c env0 dcbWasP quitBuf).fx.sent = []
    ∧ (gw_MySQLWrite_backend sha1c env0 dcbWasP quitBuf).dcb.proto.ignore_replies
        ≠ 1
    ∧ (gw_MySQLWrite_backend sha1c env0 dcbWasP quitBuf).dcb.proto.stored_query
        ≠ some quitBuf := by decide

/-! ## Claim C8 -/

/-- Claim C8 (confirmed): for every ERR packet handled while backend
authentication is still in progress, a maintenance task for the server is
posted exactly when the error code is ER_HOST_IS_BLOCKED, a user-list
refresh is triggered exactly when the code is in the ER_ACCESS_DENIED
family, no other code causes either side effect, and the error is funnelled
with action REPLY_CLIENT, the protocol entering the FAILED state. -/
theorem claim_C8_auth_error_effects (sha1 : Buf → Buf) (strerror : Nat → Buf)
    (o : AuthOracle) (env : SessionEnv) (dcb : DCB) (b : Buf)
    (steadyRead : Option Buf)
    (hpool : dcb.persistentstart = 0)
    (hst : dcb.proto.protocol_auth_state ≠ AuthState.COMPLETE)
    (herr : is_error_response b = true) :
    ((gw_read_backend_event sha1 strerror o env dcb steadyRead
        (HandshakeRead.packet b)).fx.maint_tasks
      = if getErrcode b = ER_HOST_IS_BLOCKED then 1 else 0)
    ∧ ((gw_read_backend_event sha1 strerror o env dcb steadyRead
        (HandshakeRead.packet b)).fx.user_refreshes
      = if getErrcode b = ER_ACCESS_DENIED_ERROR
          ∨ getErrcode b = ER_DBACCESS_DENIED_ERROR
          ∨ getErrcode b = ER_ACCESS_DENIED_NO_PASSWORD_ERROR then 1 else 0)
    ∧ (gw_read_backend_event sha1 strerror o env dcb steadyRead
        (HandshakeRead.packet b)).fx.notified = [ErrAction.REPLY_CLIENT]
    ∧ (gw_read_backend_event sha1 strerror o env dcb steadyRead
        (HandshakeRead.packet b)).dcb.proto.protocol_auth_state
        = AuthState.FAILED := by
    refine ⟨?_, ?_, ?_, ?_⟩ <;>
      simp only [gw_read_backend_event, hpool, hst, herr, ne_eq,
        not_false_eq_true, not_true_eq_false, if_true, if_false, ite_true,
        ite_false, gw_reply_on_error, do_handle_error, handle_error_response,
        Effects.merge, reduceCtorEq] <;>
      split_ifs <;>
      simp_all [ER_HOST_IS_BLOCKED, ER_ACCESS_DENIED_ERROR,
        ER_DBACCESS_DENIED_ERROR, ER_ACCESS_DENIED_NO_PASSWORD_ERROR]

/-- An ERR packet with error code 1129 (ER_HOST_IS_BLOCKED). -/
def errBuf1129 : Buf := [9, 0, 0, 2, 255, 105, 4, 35, 72, 89, 48, 48, 48]

/-- A DCB still in the CONNECTED handshake state. -/
def dcbConn : DCB :=
  { dcb0 with proto := { proto0 with
      protocol_auth_state := AuthState.CONNECTED } }

/-- Witness for C8: an ER_HOST_IS_BLOCKED reply during the handshake. -/
theorem claim_C8_auth_error_effects_witness :
    (dcbConn.persistentstart = 0
      ∧ dcbConn.proto.protocol_auth_state ≠ AuthState.COMPLETE
      ∧ is_error_response errBuf1129 = true)
    ∧ (((gw_read_backend_event sha1c strerror0 oracle0 env0 dcbConn none
          (HandshakeRead.packet errBuf1129)).fx.maint_tasks
        = if getErrcode errBuf1129 = ER_HOST_IS_BLOCKED then 1 else 0)
      ∧ ((gw_read_backend_event sha1c strerror0 oracle0 env0 dcbConn none
          (HandshakeRead.packet errBuf1129)).fx.user_refreshes
        = if getErrcode errBuf1129 = ER_ACCESS_DENIED_ERROR
            ∨ getErrcode errBuf1129 = ER_DBACCESS_DENIED_ERROR
            ∨ getErrcode errBuf1129 = ER_ACCESS_DENIED_NO_PASSWORD_ERROR
          then 1 else 0)
      ∧ (gw_read_backend_event sha1c strerror0 oracle0 env0 dcbConn none
          (HandshakeRead.packet errBuf1129)).fx.notified
          = [ErrAction.REPLY_CLIENT]
      ∧ (gw_read_backend_event sha1c strerror0 oracle0 env0 dcbConn none
          (HandshakeRead.packet errBuf1129)).dcb.proto.protocol_auth_state
          = AuthState.FAILED) :=
  ⟨⟨by decide, by decide, by decide⟩,
   claim_C8_auth_error_effects sha1c strerror0 oracle0 env0 dcbConn
     errBuf1129 none (by decide) (by decide) (by decide)⟩

/-! ## Claim C9 -/

/-- Claim C9 (corrected): every invocation of the error funnel constructs a
well-formed MariaDB ERR packet with sequence number 1, appending the socket
errno and its strerror text when one is known, and performs exactly one
router notification; the funnel does not itself guard against re-entry - it
only asserts that the DCB's error-handle flag is clear and never sets it,
so a second invocation before close repeats the construction and the
notification instead of being a no-op. -/
theorem claim_C9_error_funnel (strerror : Nat → Buf) (env : SessionEnv)
    (dcb : DCB) (action : ErrAction) (errmsg : Buf)
    (hsz : errmsg.length + (get_detailed_error strerror env).length + 9
      < 16777216) :
    (do_handle_error strerror env dcb action errmsg).errbuf.getD 3 0 = 1
    ∧ (do_handle_error strerror env dcb action errmsg).errbuf.getD 4 0
        = MYSQL_REPLY_ERR
    ∧ getByte3 (do_handle_error strerror env dcb action errmsg).errbuf
        = (do_handle_error strerror env dcb action errmsg).errbuf.length - 4
    ∧ (env.sock_errno ≠ 0 → ∃ pre post,
        (do_handle_error strerror env dcb action errmsg).errbuf
          = pre ++ strerror env.sock_errno ++ post)
    ∧ (do_handle_error strerror env dcb action errmsg).fx.notified = [action]
    ∧ (do_handle_error strerror env dcb action errmsg).dcb = dcb
    ∧ (do_handle_error strerror env dcb action errmsg).assert_ok
        = !dcb.dcb_errhandle_called
    ∧ (do_handle_error strerror env
        (do_handle_error strerror env dcb action errmsg).dcb action
        errmsg).fx.notified = [action] := by
  have h6 : (stringBytes "#HY000").length = 6 := by decide
  refine ⟨?_, ?_, ?_, ?_, rfl, rfl, rfl, rfl⟩
  · simp [do_handle_error, mysql_create_custom_error, setByte3]
  · simp [do_handle_error, mysql_create_custom_error, setByte3]
  · simp only [do_handle_error, mysql_create_custom_error, setByte3,
      getByte3, List.cons_append, List.nil_append, List.getD_cons_zero,
      List.getD_cons_succ, List.length_cons, List.length_append, h6]
    omega
  · intro hne
    refine ⟨setByte3 ([MYSQL_REPLY_ERR, 0xd3, 0x07] ++ stringBytes "#HY000"
        ++ (errmsg ++ get_detailed_error strerror env)).length
      ++ [1 % 256] ++ [MYSQL_REPLY_ERR, 0xd3, 0x07] ++ stringBytes "#HY000"
      ++ errmsg ++ stringBytes " (" ++ natBytes env.sock_errno
      ++ stringBytes ", ", stringBytes ")", ?_⟩
    simp [do_handle_error, mysql_create_custom_error, get_detailed_error, hne]

/-- Witness for C9 with a known socket error. -/
theorem claim_C9_error_funnel_witness :
    ((stringBytes "Lost connection").length
        + (get_detailed_error strerror0
            { env0 with sock_errno := 111 }).length + 9 < 16777216)
    ∧ ((do_handle_error strerror0 { env0 with sock_errno := 111 } dcb0
          ErrAction.NEW_CONNECTION (stringBytes "Lost connection")).errbuf.getD 3 0
        = 1
      ∧ (do_handle_error strerror0 { env0 with sock_errno := 111 } dcb0
          ErrAction.NEW_CONNECTION (stringBytes "Lost connection")).errbuf.getD 4 0
        = MYSQL_REPLY_ERR
      ∧ getByte3 (do_handle_error strerror0 { env0 with sock_errno := 111 } dcb0
          ErrAction.NEW_CONNECTION (stringBytes "Lost connection")).errbuf
        = (do_handle_error strerror0 { env0 with sock_errno := 111 } dcb0
            ErrAction.NEW_CONNECTION (stringBytes "Lost connection")).errbuf.length
            - 4
      ∧ (({ env0 with sock_errno := 111 } : SessionEnv).sock_errno ≠ 0
          → ∃ pre post,
          (do_handle_error strerror0 { env0 with sock_errno := 111 } dcb0
            ErrAction.NEW_CONNECTION (stringBytes "Lost connection")).errbuf
            = pre ++ strerror0 111 ++ post)
      ∧ (do_handle_error strerror0 { env0 with sock_errno := 111 } dcb0
          ErrAction.NEW_CONNECTION (stringBytes "Lost connection")).fx.notified
          = [ErrAction.NEW_CONNECTION]
      ∧ (do_handle_error strerror0 { env0 with sock_errno := 111 } dcb0
          ErrAction.NEW_CONNECTION (stringBytes "Lost connection")).dcb = dcb0
      ∧ (do_handle_error strerror0 { env0 with sock_errno := 111 } dcb0
          ErrAction.NEW_CONNECTION (stringBytes "Lost connection")).assert_ok
          = !dcb0.dcb_errhandle_called
      ∧ (do_handle_error strerror0 { env0 with sock_errno := 111 }
          (do_handle_error strerror0 { env0 with sock_errno := 111 } dcb0
            ErrAction.NEW_CONNECTION (stringBytes "Lost connection")).dcb
          ErrAction.NEW_CONNECTION (stringBytes "Lost connection")).fx.notified
          = [ErrAction.NEW_CONNECTION]) :=
  ⟨by decide,
   claim_C9_error_funnel strerror0 { env0 with sock_errno := 111 } dcb0
     ErrAction.NEW_CONNECTION (stringBytes "Lost connection") (by decide)⟩

/-- Counterexample to C9 as stated: invoking the funnel twice on the same
DCB before it is closed is not a no-op - each invocation notifies the
router, and the funnel leaves the DCB (and its error-handle flag)
untouched, so nothing stops the second notification. -/
theorem claim_C9_counterexample :
    (do_handle_error strerror0 env0 dcb0 ErrAction.NEW_CONNECTION
        [76, 111, 115, 116]).fx.notified = [ErrAction.NEW_CONNECTION]
    ∧ (do_handle_error strerror0 env0
        (do_handle_error strerror0 env0 dcb0 ErrAction.NEW_CONNECTION
          [76, 111, 115, 116]).dcb ErrAction.NEW_CONNECTION
        [76, 111, 115, 116]).fx.notified = [ErrAction.NEW_CONNECTION]
    ∧ (do_handle_error strerror0 env0 dcb0 ErrAction.NEW_CONNECTION
        [76, 111, 115, 116]).dcb = dcb0 :=
  ⟨rfl, rfl, rfl⟩

/-! ## Claim C2 -/

theorem prepare_for_write_stored_query (env : SessionEnv) (dcb : DCB)
    (buffer : GWBUF) :
    (prepare_for_write env dcb buffer).stored_query
      = dcb.proto.stored_query := by
  simp only [prepare_for_write]
  split_ifs <;> rfl

theorem prepare_for_write_ignore_replies (env : SessionEnv) (dcb : DCB)
    (buffer : GWBUF) :
    (prepare_for_write env dcb buffer).ignore_replies
      = dcb.proto.ignore_replies := by
  simp only [prepare_for_write]
  split_ifs <;> rfl

theorem prepare_for_write_auth_state (env : SessionEnv) (dcb : DCB)
    (buffer : GWBUF) :
    (prepare_for_write env dcb buffer).protocol_auth_state
      = dcb.proto.protocol_auth_state := by
  simp only [prepare_for_write]
  split_ifs <;> rfl

/-- Under a pure ignore-replies drain (no result collection configured and
a read made solely of complete packets), the steady-state read reduces to
the post-collection stage on the unmodified read. -/
theorem gw_read_and_write_reduces (sha1 : Buf → Buf) (strerror : Nat → Buf)
    (env : SessionEnv) (dcb : DCB) (read_data : Buf)
    (hir : dcb.proto.ignore_replies = 1)
    (hrs : env.caps.resultset_output = false)
    (hcr : dcb.proto.collect_result = false)
    (hne : read_data ≠ [])
    (hcomplete : wholePacketsLen read_data = read_data.length) :
    gw_read_and_write sha1 strerror env dcb (some read_data)
      = rw_after_collect sha1 env { dcb with readq := [] } read_data false := by
  have hlen0 : ¬ read_data.length = 0 := by
    simpa [List.length_eq_zero] using hne
  obtain ⟨st, ps, wp, ehc, hs, rq, dq, proto⟩ := dcb
  obtain ⟨pas, ir, sq, cu, cc, lq, cr, ts, ch, sc⟩ := proto
  simp only at hir hcr
  subst hir hcr
  unfold gw_read_and_write
  simp [hlen0, hcomplete, List.take_length, List.drop_length, hne,
    collecting_resultset, hrs]

theorem gw_MySQLWrite_backend_replies (sha1 : Buf → Buf) (env : SessionEnv)
    (dcb : DCB) (queue : GWBUF) :
    (gw_MySQLWrite_backend sha1 env dcb queue).fx.replies = [] := by
  cases hsq : dcb.proto.stored_query <;>
    cases hst : dcb.proto.protocol_auth_state <;>
      simp only [gw_MySQLWrite_backend, hsq, hst] <;>
      split_ifs <;>
      simp [Effects.merge]

theorem handle_error_response_replies (b : Buf) :
    (handle_error_response b).replies = [] := by
  unfold handle_error_response
  dsimp only
  split_ifs <;> rfl

theorem handle_error_response_sent (b : Buf) :
    (handle_error_response b).sent = [] := by
  unfold handle_error_response
  dsimp only
  split_ifs <;> rfl

theorem handle_error_response_hangups (b : Buf) :
    (handle_error_response b).fake_hangups = 0 := by
  unfold handle_error_response
  dsimp only
  split_ifs <;> rfl

theorem handle_error_response_freed (b : Buf) :
    (handle_error_response b).freed = [] := by
  unfold handle_error_response
  dsimp only
  split_ifs <;> rfl

theorem handle_auth_change_response_replies (sha1 : Buf → Buf)
    (env : SessionEnv) (reply : Buf) :
    (handle_auth_change_response sha1 env reply).2.replies = [] := by
  unfold handle_auth_change_response
  split_ifs <;> rfl

theorem handle_auth_change_response_pos (sha1 : Buf → Buf) (env : SessionEnv)
    (reply : Buf) (hplug : cStr (reply.drop 5) = pluginName)
    (hok : env.dcb_write_ok = true) :
    handle_auth_change_response sha1 env reply
      = (true,
        { sent := [send_mysql_native_password_response sha1 env.client reply] }) := by
  unfold handle_auth_change_response
  simp [hplug, hok]

theorem handle_auth_change_response_neg (sha1 : Buf → Buf) (env : SessionEnv)
    (reply : Buf) (hplug : cStr (reply.drop 5) ≠ pluginName) :
    handle_auth_change_response sha1 env reply = (false, {}) := by
  unfold handle_auth_change_response
  simp [hplug]

/-- The ignore-replies drain of the post-collection stage: with
changing-user off, ignore-replies at 1, the protocol COMPLETE, a non-QUIT
non-ignorable parked query and a writer that accepts buffers, only the last
packet of the read is kept, nothing is emitted to the router, and the
outcome follows the class of that last packet. -/
theorem rw_after_collect_drain (sha1 : Buf → Buf) (env : SessionEnv)
    (dcb : DCB) (read_buffer : Buf) (q : GWBUF)
    (hcu : dcb.proto.changing_user = false)
    (hir : dcb.proto.ignore_replies = 1)
    (hauth : dcb.proto.protocol_auth_state = AuthState.COMPLETE)
    (hwp : dcb.was_persistent = false)
    (hq : dcb.proto.stored_query = some q)
    (hqc : getCommand q.data ≠ MXS_COM_QUIT)
    (hqi : q.tags.ignorable = false)
    (hok : env.dcb_write_ok = true)
    (hne : read_buffer ≠ []) :
    (rw_after_collect sha1 env dcb read_buffer false).fx.replies = []
    ∧ (rw_after_collect sha1 env dcb read_buffer false).kept_reply
        = some ((splitPackets read_buffer).getLastD [])
    ∧ (getCommand ((splitPackets read_buffer).getLastD []) = MYSQL_REPLY_OK →
        (rw_after_collect sha1 env dcb read_buffer false).fx.sent = [q]
        ∧ (rw_after_collect sha1 env dcb read_buffer false).rc = 1
        ∧ (rw_after_collect sha1 env dcb read_buffer
            false).dcb.proto.ignore_replies = 0
        ∧ (rw_after_collect sha1 env dcb read_buffer
            false).dcb.proto.stored_query = none
        ∧ (rw_after_collect sha1 env dcb read_buffer false).forwarded = some q)
    ∧ (auth_change_requested ((splitPackets read_buffer).getLastD []) = true →
        cStr (((splitPackets read_buffer).getLastD []).drop 5) = pluginName →
        (rw_after_collect sha1 env dcb read_buffer
            false).dcb.proto.ignore_replies = 1
        ∧ (rw_after_collect sha1 env dcb read_buffer
            false).dcb.proto.stored_query = some q
        ∧ (rw_after_collect sha1 env dcb read_buffer false).fx.sent
            = [send_mysql_native_password_response sha1 env.client
                ((splitPackets read_buffer).getLastD [])]
        ∧ (rw_after_collect sha1 env dcb read_buffer false).fx.fake_hangups = 0)
    ∧ (auth_change_requested ((splitPackets read_buffer).getLastD []) = true →
        cStr (((splitPackets read_buffer).getLastD []).drop 5) ≠ pluginName →
        (rw_after_collect sha1 env dcb read_buffer false).fx.fake_hangups = 1
        ∧ q.data ∈ (rw_after_collect sha1 env dcb read_buffer false).fx.freed
        ∧ (rw_after_collect sha1 env dcb read_buffer false).fx.sent = [])
    ∧ (getCommand ((splitPackets read_buffer).getLastD []) ≠ MYSQL_REPLY_OK →
        auth_change_requested ((splitPackets read_buffer).getLastD []) = false →
        (rw_after_collect sha1 env dcb read_buffer false).fx.fake_hangups = 1
        ∧ q.data ∈ (rw_after_collect sha1 env dcb read_buffer false).fx.freed
        ∧ (rw_after_collect sha1 env dcb read_buffer false).fx.sent = []) := by
  have hlast : (drain_to_last (read_buffer.take (packetTotalLen read_buffer))
      (read_buffer.drop (packetTotalLen read_buffer)) []).1
      = (splitPackets read_buffer).getLastD [] := by
    rw [drain_to_last_fst, splitPackets_cons read_buffer hne,
      List.getLastD_cons]
  have hquit : MYSQL_IS_COM_QUIT q.data = false := by
    simp [MYSQL_IS_COM_QUIT, hqc]
  obtain ⟨st, ps, wp, ehc, hs, rq, dq, proto⟩ := dcb
  obtain ⟨pas, ir, sq, cu, cc, lq, cr, ts, ch, sc⟩ := proto
  simp only at hcu hir hauth hwp hq
  subst hcu hir hauth hwp hq
  unfold rw_after_collect
  simp only [hlast, Bool.false_eq_true, false_and, if_false, ite_false,
    Nat.lt_irrefl, Nat.zero_lt_one, if_true, ite_true, Nat.sub_self]
  refine ⟨?_, ?_, ?_, ?_, ?_, ?_⟩
  · split_ifs <;>
      simp_all [Effects.merge, gw_MySQLWrite_backend_replies,
        handle_auth_change_response_replies, handle_error_response_replies]
  · split_ifs <;> simp_all
  · intro hok'
    simp only [List.getLastD_eq_getLast?] at hok' ⊢
    simp only [hok', if_true, ite_true]
    unfold gw_MySQLWrite_backend
    simp [hquit, hqc, hqi, hok, Effects.merge, prepare_for_write_stored_query,
      prepare_for_write_ignore_replies]
  · intro hacr hplug
    have hcmd : ¬ getCommand ((splitPackets read_buffer).getLastD [])
        = MYSQL_REPLY_OK := by
      simp only [auth_change_requested, Bool.and_eq_true, beq_iff_eq] at hacr
      rw [hacr.1]
      simp [MYSQL_REPLY_OK, MYSQL_REPLY_AUTHSWITCHREQUEST]
    simp only [List.getLastD_eq_getLast?] at hacr hplug hcmd ⊢
    simp [hcmd, hacr, handle_auth_change_response_pos sha1 env _ hplug hok,
      Effects.merge]
  · intro hacr hplug
    have hcmd : ¬ getCommand ((splitPackets read_buffer).getLastD [])
        = MYSQL_REPLY_OK := by
      simp only [auth_change_requested, Bool.and_eq_true, beq_iff_eq] at hacr
      rw [hacr.1]
      simp [MYSQL_REPLY_OK, MYSQL_REPLY_AUTHSWITCHREQUEST]
    simp only [List.getLastD_eq_getLast?] at hacr hplug hcmd ⊢
    simp [hcmd, hacr, handle_auth_change_response_neg sha1 env _ hplug,
      Effects.merge]
  · intro hcmd hacr
    simp only [List.getLastD_eq_getLast?] at hcmd hacr ⊢
    simp only [hcmd, hacr, Bool.false_eq_true, if_false, ite_false]
    split_ifs <;>
      simp [Effects.merge, handle_error_response_hangups,
        handle_error_response_freed, handle_error_response_sent]

/-- Claim C2 (corrected): for a read delivering at least one complete
packet on a backend DCB with ignore-replies 1 (the COM_CHANGE_USER drain),
no result collection configured, changing-user off, the protocol COMPLETE
and a non-QUIT non-ignorable parked query: all packets except the last are
discarded and only the last is inspected; if it is OK the stored query is
handed to the write entry point and reaches the backend with the counter at
0; if it is an AUTH-SWITCH to mysql_native_password the core answers it and
the counter is back at 1 with the query still parked; if it is an
AUTH-SWITCH to another plugin, an ERR or an unknown byte the query is freed
and a fake hangup raised.  In every case nothing is emitted upward to the
router - the specification's "exactly one packet (the last) is emitted
upward with sequence 3" does not hold on this path: the kept reply is
consumed internally (the sequence-3 rewrite belongs to the separate
changing-user path). -/
theorem claim_C2_ignore_replies_drain (sha1 : Buf → Buf)
    (strerror : Nat → Buf) (env : SessionEnv) (dcb : DCB) (read_data : Buf)
    (q : GWBUF)
    (hcu : dcb.proto.changing_user = false)
    (hir : dcb.proto.ignore_replies = 1)
    (hauth : dcb.proto.protocol_auth_state = AuthState.COMPLETE)
    (hwp : dcb.was_persistent = false)
    (hrs : env.caps.resultset_output = false)
    (hcr : dcb.proto.collect_result = false)
    (hq : dcb.proto.stored_query = some q)
    (hqc : getCommand q.data ≠ MXS_COM_QUIT)
    (hqi : q.tags.ignorable = false)
    (hok : env.dcb_write_ok = true)
    (hne : read_data ≠ [])
    (hcomplete : wholePacketsLen read_data = read_data.length) :
    (gw_read_and_write sha1 strerror env dcb (some read_data)).fx.replies = []
    ∧ (gw_read_and_write sha1 strerror env dcb (some read_data)).kept_reply
        = some ((splitPackets read_data).getLastD [])
    ∧ (getCommand ((splitPackets read_data).getLastD []) = MYSQL_REPLY_OK →
        (gw_read_and_write sha1 strerror env dcb (some read_data)).fx.sent = [q]
        ∧ (gw_read_and_write sha1 strerror env dcb (some read_data)).rc = 1
        ∧ (gw_read_and_write sha1 strerror env dcb
            (some read_data)).dcb.proto.ignore_replies = 0
        ∧ (gw_read_and_write sha1 strerror env dcb
            (some read_data)).dcb.proto.stored_query = none
        ∧ (gw_read_and_write sha1 strerror env dcb
            (some read_data)).forwarded = some q)
    ∧ (auth_change_requested ((splitPackets read_data).getLastD []) = true →
        cStr (((splitPackets read_data).getLastD []).drop 5) = pluginName →
        (gw_read_and_write sha1 strerror env dcb
            (some read_data)).dcb.proto.ignore_replies = 1
        ∧ (gw_read_and_write sha1 strerror env dcb
            (some read_data)).dcb.proto.stored_query = some q
        ∧ (gw_read_and_write sha1 strerror env dcb (some read_data)).fx.sent
            = [send_mysql_native_password_response sha1 env.client
                ((splitPackets read_data).getLastD [])]
        ∧ (gw_read_and_write sha1 strerror env dcb
            (some read_data)).fx.fake_hangups = 0)
    ∧ (auth_change_requested ((splitPackets read_data).getLastD []) = true →
        cStr (((splitPackets read_data).getLastD []).drop 5) ≠ pluginName →
        (gw_read_and_write sha1 strerror env dcb
            (some read_data)).fx.fake_hangups = 1
        ∧ q.data ∈ (gw_read_and_write sha1 strerror env dcb
            (some read_data)).fx.freed
        ∧ (gw_read_and_write sha1 strerror env dcb (some read_data)).fx.sent
            = [])
    ∧ (getCommand ((splitPackets read_data).getLastD []) ≠ MYSQL_REPLY_OK →
        auth_change_requested ((splitPackets read_data).getLastD []) = false →
        (gw_read_and_write sha1 strerror env dcb
            (some read_data)).fx.fake_hangups = 1
        ∧ q.data ∈ (gw_read_and_write sha1 strerror env dcb
            (some read_data)).fx.freed
        ∧ (gw_read_and_write sha1 strerror env dcb (some read_data)).fx.sent
            = []) := by
  rw [gw_read_and_write_reduces sha1 strerror env dcb read_data hir hrs hcr
    hne hcomplete]
  exact rw_after_collect_drain sha1 env { dcb with readq := [] } read_data q
    hcu hir hauth hwp hq hqc hqi hok hne

/-- Witness for C2: draining the OK reply to the synthesised
COM_CHANGE_USER flushes the parked COM_QUERY to the backend. -/
theorem claim_C2_ignore_replies_drain_witness :
    (dcbIR.proto.changing_user = false
      ∧ dcbIR.proto.ignore_replies = 1
      ∧ dcbIR.proto.protocol_auth_state = AuthState.COMPLETE
      ∧ dcbIR.was_persistent = false
      ∧ env0.caps.resultset_output = false
      ∧ dcbIR.proto.collect_result = false
      ∧ dcbIR.proto.stored_query = some queryBuf
      ∧ getCommand queryBuf.data ≠ MXS_COM_QUIT
      ∧ queryBuf.tags.ignorable = false
      ∧ env0.dcb_write_ok = true
      ∧ okPacket3 ≠ []
      ∧ wholePacketsLen okPacket3 = okPacket3.length)
    ∧ ((gw_read_and_write sha1c strerror0 env0 dcbIR
          (some okPacket3)).fx.replies = []
      ∧ (gw_read_and_write sha1c strerror0 env0 dcbIR
          (some okPacket3)).kept_reply
          = some ((splitPackets okPacket3).getLastD [])
      ∧ (getCommand ((splitPackets okPacket3).getLastD []) = MYSQL_REPLY_OK →
          (gw_read_and_write sha1c strerror0 env0 dcbIR
            (some okPacket3)).fx.sent = [queryBuf]
          ∧ (gw_read_and_write sha1c strerror0 env0 dcbIR
              (some okPacket3)).rc = 1
          ∧ (gw_read_and_write sha1c strerror0 env0 dcbIR
              (some okPacket3)).dcb.proto.ignore_replies = 0
          ∧ (gw_read_and_write sha1c strerror0 env0 dcbIR
              (some okPacket3)).dcb.proto.stored_query = none
          ∧ (gw_read_and_write sha1c strerror0 env0 dcbIR
              (some okPacket3)).forwarded = some queryBuf)
      ∧ (auth_change_requested ((splitPackets okPacket3).getLastD []) = true →
          cStr (((splitPackets okPacket3).getLastD []).drop 5) = pluginName →
          (gw_read_and_write sha1c strerror0 env0 dcbIR
              (some okPacket3)).dcb.proto.ignore_replies = 1
          ∧ (gw_read_and_write sha1c strerror0 env0 dcbIR
              (some okPacket3)).dcb.proto.stored_query = some queryBuf
          ∧ (gw_read_and_write sha1c strerror0 env0 dcbIR
              (some okPacket3)).fx.sent
              = [send_mysql_native_password_response sha1c env0.client
                  ((splitPackets okPacket3).getLastD [])]
          ∧ (gw_read_and_write sha1c strerror0 env0 dcbIR
              (some okPacket3)).fx.fake_hangups = 0)
      ∧ (auth_change_requested ((splitPackets okPacket3).getLastD []) = true →
          cStr (((splitPackets okPacket3).getLastD []).drop 5) ≠ pluginName →
          (gw_read_and_write sha1c strerror0 env0 dcbIR
              (some okPacket3)).fx.fake_hangups = 1
          ∧ queryBuf.data ∈ (gw_read_and_write sha1c strerror0 env0 dcbIR
              (some okPacket3)).fx.freed
          ∧ (gw_read_and_write sha1c strerror0 env0 dcbIR
              (some okPacket3)).fx.sent = [])
      ∧ (getCommand ((splitPackets okPacket3).getLastD []) ≠ MYSQL_REPLY_OK →
          auth_change_requested ((splitPackets okPacket3).getLastD []) = false →
          (gw_read_and_write sha1c strerror0 env0 dcbIR
              (some okPacket3)).fx.fake_hangups = 1
          ∧ queryBuf.data ∈ (gw_read_and_write sha1c strerror0 env0 dcbIR
              (some okPacket3)).fx.freed
          ∧ (gw_read_and_write sha1c strerror0 env0 dcbIR
              (some okPacket3)).fx.sent = [])) :=
  ⟨⟨by decide, by decide, by decide, by decide, by decide, by decide,
    by decide, by decide, by decide, by decide, by decide, by decide⟩,
   claim_C2_ignore_replies_drain sha1c strerror0 env0 dcbIR okPacket3 queryBuf
     (by decide) (by decide) (by decide) (by decide) (by decide) (by decide)
     (by decide) (by decide) (by decide) (by decide) (by decide) (by decide)⟩

/-- Counterexample to C2 as stated: at a read that takes ignore-replies
from 1 to 0 with an OK reply, zero packets - not exactly one - are emitted
upward to the router. -/
theorem claim_C2_counterexample :
    dcbIR.proto.ignore_replies = 1
    ∧ (gw_read_and_write sha1c strerror0 env0 dcbIR
        (some okPacket3)).dcb.proto.ignore_replies = 0
    ∧ (gw_read_and_write sha1c strerror0 env0 dcbIR
        (some okPacket3)).fx.replies = [] := by decide

end MaxScale
